import Mathlib

/-!
# Verification of the UefiVarMonitor UEFI image parser

A shallow embedding, in Lean 4, of the parsing and assembly routines of the
`pkg/guid` and `pkg/uefi` packages of the UefiVarMonitor repository, together
with theorems settling the specification claims about them.

Conventions used throughout:

* Machine bytes and words are modelled as `Nat` with explicit `% 2^w`
  wherever Go's fixed-width arithmetic can overflow or wrap.
* Go byte slices become `List Nat` (each entry a byte value `< 256`).
* Fallible Go functions returning `(T, error)` become `Except PErr T` or
  `Option T`.
* The process-wide erase-polarity global (`Attributes.ErasePolarity` /
  `SetErasePolarity`, whose defining file is not among the provided sources)
  is modelled by explicit state passing of an `Option Nat`.
* The `ReadOnly` global only controls whether node buffers alias the input
  slice or are copied; both behaviours produce the same byte values, so the
  model does not distinguish them.
-/

/-- Byte strings: each element is one byte value (callers keep them `< 256`). -/
abbrev Bytes := List Nat

/-- Parse-time failures of the embedded parsers.  Go reports errors as
wrapped message strings; the model keeps one constructor per distinct
failure site (message text is not modelled).  `fuel` is the out-of-fuel
marker of the fuel-indexed recursion and corresponds to no Go error. -/
inductive PErr where
  | fuel
  | binaryRead
  | fvTooSmall
  | fvLengthTooBig
  | polarityConflict
  | offsetBeyondFV
  | invalidFileLength
  | fileSizeMismatch
  | nvarDataOffset
  | sectionFreeSpace
  | sectionSizeMismatch
  | oversizeHdr
  | invalidSectionLength
  | insertOffsetMid
  | insertEmptyFile
  deriving Repr, DecidableEq

/-- Little-endian 16-bit read (callers have checked that two bytes exist). -/
def readU16LE (l : Bytes) : Nat := l.getD 0 0 + 256 * l.getD 1 0

/-- Little-endian 32-bit read. -/
def readU32LE (l : Bytes) : Nat :=
  l.getD 0 0 + 256 * l.getD 1 0 + 65536 * l.getD 2 0 + 16777216 * l.getD 3 0

/-- Little-endian 64-bit read. -/
def readU64LE (l : Bytes) : Nat :=
  readU32LE l + 4294967296 * readU32LE (l.drop 4)

/-- Little-endian 64-bit serialization (8 bytes). -/
def writeU64LE (x : Nat) : Bytes :=
  [x % 256, x / 256 % 256, x / 65536 % 256, x / 16777216 % 256,
   x / 4294967296 % 256, x / 1099511627776 % 256,
   x / 281474976710656 % 256, x / 72057594037927936 % 256]

/-- Modelled from the spec: `align(x, 8)` rounds `x` up to the next multiple
of 8 (§4.2 of the spec); the Go helper `Align8` is not among the provided
source files. -/
def Align8 (x : Nat) : Nat := (x + 7) / 8 * 8

/-- Modelled from the spec: `align(x, 4)` rounds `x` up to the next multiple
of 4 (§4.2); the Go helper `Align4` is not among the provided source files. -/
def Align4 (x : Nat) : Nat := (x + 3) / 4 * 4

/-- Modelled from the spec: `read3(bytes[3]) → u32`, the little-endian 3-byte
size decoder (§4.2); the Go helper `Read3Size` is not among the provided
source files. -/
def Read3Size (s : Bytes) : Nat :=
  s.getD 0 0 + 256 * s.getD 1 0 + 65536 * s.getD 2 0

/-- Modelled from the spec: `write3(u64) → bytes[3]`, clamping to `0xFFFFFF`
(§4.2, and `File.SetSize`'s comment "This will set size to 0xFFFFFF if too
big"); the Go helper `Write3Size` is not among the provided source files. -/
def Write3Size (x : Nat) : Bytes :=
  if x > 0xFFFFFF then [0xFF, 0xFF, 0xFF]
  else [x % 256, x / 256 % 256, x / 65536 % 256]

/-- Modelled from the spec: the erase-polarity setter — "first caller wins; a
second caller with a different value returns `ErasePolarityConflict`" (§4.2).
The process-wide cell is modelled by the explicit `Option Nat` state. -/
def setErasePolarity (pol : Option Nat) (p : Nat) : Except PErr (Option Nat) :=
  match pol with
  | none => .ok (some p)
  | some q => if q = p then .ok (some q) else .error .polarityConflict

/-! ## GUID (`pkg/guid`, file `part_000`)

A GUID is stored as 16 bytes.  `Parse` strips every hyphen, hex-decodes the
rest, and fixes the byte order by reversing the groups of lengths
{4,2,2,1,1,1,1,1,1,1,1}; `String` applies the same group reversal and prints
`%02X` pairs with hyphens in the 8-4-4-4-12 pattern. -/

namespace guid

/-- The in-place reversal of the field groups `{4,2,2,1,…,1}` performed by
the `for _, fieldlen := range fields` loops of `Parse` and `GUID.String`.
Reversing a one-element group is the identity, so only the 4-2-2 prefix
matters. -/
def revGroups (l : Bytes) : Bytes :=
  (l.take 4).reverse ++ ((l.drop 4).take 2).reverse ++
    ((l.drop 6).take 2).reverse ++ l.drop 8

/-- One hex digit, as accepted by Go's `encoding/hex` (`0-9`, `a-f`, `A-F`). -/
def fromHexChar (c : Char) : Option Nat :=
  if 48 ≤ c.toNat ∧ c.toNat ≤ 57 then some (c.toNat - 48)
  else if 97 ≤ c.toNat ∧ c.toNat ≤ 102 then some (c.toNat - 87)
  else if 65 ≤ c.toNat ∧ c.toNat ≤ 70 then some (c.toNat - 55)
  else none

/-- Go's `hex.DecodeString`: consumes the characters two at a time; an odd
length or a non-hex character is an error. -/
def hexDecode : List Char → Option Bytes
  | [] => some []
  | [_] => none
  | c1 :: c2 :: rest =>
    match fromHexChar c1, fromHexChar c2, hexDecode rest with
    | some h, some l, some bs => some ((16 * h + l) :: bs)
    | _, _, _ => none

/-- `guid.Parse`: strip all hyphens, hex-decode, require 16 bytes, then fix
the mixed byte order by the group reversal. -/
def Parse (s : String) : Option Bytes :=
  let stripped := s.data.filter (· != '-')
  match hexDecode stripped with
  | none => none
  | some decoded =>
    if decoded.length ≠ 16 then none else some (revGroups decoded)

/-- The `%02X` upper-case hex digit. -/
def toUpHexChar (d : Nat) : Char :=
  Char.ofNat (if d < 10 then 48 + d else 55 + d)

/-- A byte printed as two upper-case hex digits (`%02X`). -/
def byteHex (b : Nat) : List Char := [toUpHexChar (b / 16), toUpHexChar (b % 16)]

/-- `GUID.String`: reverse the field groups, then print
`%02X%02X%02X%02X-%02X%02X-%02X%02X-%02X%02X-%02X%02X%02X%02X%02X%02X`. -/
def GUIDString (g : Bytes) : String :=
  let u := revGroups g
  String.mk
    (byteHex (u.getD 0 0) ++ byteHex (u.getD 1 0) ++ byteHex (u.getD 2 0) ++
     byteHex (u.getD 3 0) ++ ['-'] ++
     byteHex (u.getD 4 0) ++ byteHex (u.getD 5 0) ++ ['-'] ++
     byteHex (u.getD 6 0) ++ byteHex (u.getD 7 0) ++ ['-'] ++
     byteHex (u.getD 8 0) ++ byteHex (u.getD 9 0) ++ ['-'] ++
     byteHex (u.getD 10 0) ++ byteHex (u.getD 11 0) ++ byteHex (u.getD 12 0) ++
     byteHex (u.getD 13 0) ++ byteHex (u.getD 14 0) ++ byteHex (u.getD 15 0))

/-- An upper-case hex digit (`0-9` or `A-F`), the digit alphabet produced by
the `%02X` format of `GUID.String`. -/
def isUpHexChar (c : Char) : Bool :=
  (48 ≤ c.toNat && c.toNat ≤ 57) || (65 ≤ c.toNat && c.toNat ≤ 70)

/-- The positions of a canonical GUID text that hold hex digits (all 36
positions except the four hyphens at 8, 13, 18, 23). -/
def hexPositions : List Nat :=
  [0, 1, 2, 3, 4, 5, 6, 7, 9, 10, 11, 12, 14, 15, 16, 17, 19, 20, 21, 22,
   24, 25, 26, 27, 28, 29, 30, 31, 32, 33, 34, 35]

/-- Canonical GUID text: 36 characters, hyphens exactly at positions
8, 13, 18 and 23, all other characters upper-case hex digits. -/
def isCanonicalGUID (s : String) : Bool :=
  let l := s.data
  (l.length == 36) &&
  (l.getD 8 'x' == '-') && (l.getD 13 'x' == '-') &&
  (l.getD 18 'x' == '-') && (l.getD 23 'x' == '-') &&
  hexPositions.all (fun i => isUpHexChar (l.getD i 'x'))

end guid

/-! ## Flash regions and gap filling (`pkg/uefi/region.go`, `part_002`) -/

/-- Region structure values correspond to blocks of size 0x1000. -/
def RegionBlockSize : Nat := 0x1000

/-- The size of the flash-descriptor region. -/
def FlashDescriptorLength : Nat := 0x1000

/-- `FlashRegion` (region.go): base and limit of a region, in 4 KiB blocks
(both `uint16` in Go; callers keep them `< 65536`). -/
structure FlashRegion where
  Base : Nat
  Limit : Nat
  deriving Repr, DecidableEq

/-- `FlashRegion.BaseOffset`: offset at which the region starts. -/
def BaseOffset (r : FlashRegion) : Nat := r.Base * RegionBlockSize

/-- `FlashRegion.EndOffset`: offset at which the region ends. -/
def EndOffset (r : FlashRegion) : Nat := (r.Limit + 1) * RegionBlockSize

/-- `FlashRegion.Valid` (region.go). -/
def FlashRegion.Valid (r : FlashRegion) : Bool :=
  decide (r.Limit > 0) && decide (r.Limit ≥ r.Base) &&
  decide (r.Limit ≠ 0xFFFF) && decide (r.Base ≠ 0xFFFF)

/-- One entry of the region list produced by `FlashImage.fillRegionGaps`.
`start`/`stop` delimit the byte range of the flash image backing the entry's
buffer (`f.buf[offset:nextBase]` slices in the Go code); `isGap` marks the
synthetic `RawRegion`s of type `Unknown`; `fr` is the entry's `FlashRegion`
(for synthetic entries the freshly built one, with Go's `uint16` wrapping
made explicit by `% 65536`). -/
structure PlacedRegion where
  start : Nat
  stop : Nat
  isGap : Bool
  fr : FlashRegion
  deriving Repr, DecidableEq

/-- The loop of `FlashImage.fillRegionGaps` (part_002): `offset` starts at
`FlashDescriptorLength`; a region whose `BaseOffset` precedes `offset`
overlaps the previous region and is a fatal error (`none`); a gap before the
next region, and after the last region up to `FlashSize`, is filled with a
synthetic unknown region. -/
def fillGapsGo (flashSize : Nat) : Nat → List FlashRegion → Option (List PlacedRegion)
  | offset, [] =>
    -- check for the last region
    if offset ≠ flashSize then
      some [⟨offset, flashSize, true,
        ⟨offset / RegionBlockSize % 65536,
         (flashSize / RegionBlockSize % 65536 + 65536 - 1) % 65536⟩⟩]
    else some []
  | offset, r :: rest =>
    let nextBase := BaseOffset r
    if nextBase < offset then none  -- overlapping regions
    else
      let gaps : List PlacedRegion :=
        if offset < nextBase then
          [⟨offset, nextBase, true,
            ⟨offset / RegionBlockSize % 65536,
             (nextBase / RegionBlockSize % 65536 + 65536 - 1) % 65536⟩⟩]
        else []
      match fillGapsGo flashSize (EndOffset r) rest with
      | none => none
      | some tail => some (gaps ++ ⟨BaseOffset r, EndOffset r, false, r⟩ :: tail)

/-- `FlashImage.fillRegionGaps`, applied to the decoded regions (sorted by
`Base` by `NewFlashImage`) and the flash size. -/
def fillRegionGaps (flashSize : Nat) (regions : List FlashRegion) :
    Option (List PlacedRegion) :=
  fillGapsGo flashSize FlashDescriptorLength regions

/-- `coversRange l lo hi`: the placed regions `l` tile the byte range
`[lo, hi)` contiguously, in order, with no overlap and no gap. -/
def coversRange : List PlacedRegion → Nat → Nat → Bool
  | [], lo, hi => lo == hi
  | r :: rest, lo, hi =>
    (r.start == lo) && decide (r.start ≤ r.stop) && coversRange rest r.stop hi

/-! ## Firmware-volume offset search and file insertion
(`pkg/uefi/firmwarevolume.go`) -/

/-- The 4-byte firmware-volume signature `"_FVH"`. -/
def fvSig : Bytes := [0x5F, 0x46, 0x56, 0x48]

/-- The scan loop of `FindFirmwareVolumeOffset`: fuel-indexed so that it
reduces by computation; each step advances the offset by 8, so
`data.length + 1` fuel is always enough. -/
def findFVGo : Nat → Bytes → Nat → Int
  | 0, _, _ => -1
  | fuel + 1, data, offset =>
    if offset + 4 < data.length then
      if (data.drop offset).take 4 = fvSig then (offset : Int) - 40
      else findFVGo fuel data (offset + 8)
    else -1

/-- `FindFirmwareVolumeOffset` (firmwarevolume.go): scan for `"_FVH"` at
offsets 32, 40, 48, … while `offset+4 < len(data)`; on a hit return
`offset − 40`; return `-1` if `len(data) < 32` or the scan runs out. -/
def FindFirmwareVolumeOffset (data : Bytes) : Int :=
  if data.length < 32 then -1
  else findFVGo (data.length + 1) data 32

/-- `FirmwareVolume.InsertFile` (firmwarevolume.go).  The Go method mutates
`fv.buf` through the pointer receiver and returns an `error`; the model
returns the updated buffer together with the optional error.  `polarity` is
the process-wide `Attributes.ErasePolarity` byte (whose defining file is not
among the provided sources; a plain byte parameter here). -/
def InsertFile (polarity : Nat) (buf : Bytes) (alignedOffset : Nat) (fBuf : Bytes) :
    Bytes × Option PErr :=
  if buf.length > alignedOffset then (buf, some .insertOffsetMid)
  else
    -- add padding for alignment
    let padded := buf ++ List.replicate (alignedOffset - buf.length) polarity
    if fBuf.length = 0 then (padded, some .insertEmptyFile)
    else (padded ++ fBuf, none)

/-! ## Sections (`part_002`), files (`pkg/uefi/file.go`) and firmware
volumes (`pkg/uefi/firmwarevolume.go`): data structures -/

/-- `DepExOpCode` (part_002): the ten dependency-expression opcodes 0x0–0x9. -/
inductive DepExOpCode where
  | BEFORE | AFTER | PUSH | AND | OR | NOT | TRUE | FALSE | END | SOR
  deriving Repr, DecidableEq

/-- The `DepExOpCodes` map (part_002): numeric opcode byte to opcode. -/
def depExOpCodeOf : Nat → Option DepExOpCode
  | 0x0 => some .BEFORE
  | 0x1 => some .AFTER
  | 0x2 => some .PUSH
  | 0x3 => some .AND
  | 0x4 => some .OR
  | 0x5 => some .NOT
  | 0x6 => some .TRUE
  | 0x7 => some .FALSE
  | 0x8 => some .END
  | 0x9 => some .SOR
  | _ => none

/-- `DepExOp` (part_002): one operation; `BEFORE`/`AFTER`/`PUSH` carry a
16-byte GUID. -/
structure DepExOp where
  opCode : DepExOpCode
  guid : Option Bytes
  deriving Repr, DecidableEq

/-- `SectionGUIDDefined` (part_002): the type-specific header of a
GUID-defined section plus the `Compression` metadata string. -/
structure SectionGUIDDefined where
  guid : Bytes
  dataOffset : Nat
  attributes : Nat
  compression : String
  deriving Repr, DecidableEq

/-- `Section` (part_002).  `size`/`stype`/`extendedSize` are the
`SectionExtHeader` fields (the 3-byte size always copied into
`extendedSize`).  The `Encapsulated` children of a GUID-defined section are
retained as `encapsulated`; the nested firmware volume of an
`EFI_SECTION_FIRMWARE_VOLUME_IMAGE` section is parsed (its parse errors are
fatal, as in the source) but the resulting volume itself is not retained in
the model, which breaks the `Section → FirmwareVolume → File → Section` type
cycle and is not observed by any claim. -/
structure Section where
  size : Bytes
  stype : Nat
  extendedSize : Nat
  typeName : String
  buf : Bytes
  fileOrder : Nat
  typeSpecific : Option SectionGUIDDefined
  name : String
  buildNumber : Nat
  version : String
  depEx : Option (List DepExOp)
  encapsulated : List Section

/-- `FileHeaderMinLength` (file.go). -/
def FileHeaderMinLength : Nat := 0x18

/-- `FileHeaderExtMinLength` (file.go). -/
def FileHeaderExtMinLength : Nat := 0x20

/-- `EmptyBodyChecksum` (file.go). -/
def EmptyBodyChecksum : Nat := 0xAA

/-- `FileHeader` (file.go): GUID, `IntegrityCheck{Header, File}`, Type,
Attributes, `Size[3]`, State. -/
structure FileHeader where
  guid : Bytes
  checksumHeader : Nat
  checksumFile : Nat
  fileType : Nat
  attributes : Nat
  size : Bytes
  state : Nat
  deriving Repr, DecidableEq

/-- `FileHeaderExtended` (file.go): all sizes are copied into
`ExtendedSize` so there is only one place to check. -/
structure FileHeaderExtended extends FileHeader where
  extendedSize : Nat
  deriving Repr, DecidableEq

/-- `fileAttr.IsLarge` (file.go): attribute bit 0. -/
def IsLarge (a : Nat) : Bool := a &&& 0x01 != 0

/-- `fileAttr.HasChecksum` (file.go): attribute bit 6. -/
def HasChecksum (a : Nat) : Bool := a &&& 0x40 != 0

/-- `fileAttr.setLarge` (file.go). -/
def setLarge (a : Nat) (large : Bool) : Nat :=
  if large then a ||| 0x01 else a &&& 0xFE

/-- `File` (file.go).  `nvarStore` only records whether the external NVAR
store decoder succeeded (its body decoder is out of scope per the spec). -/
structure File where
  header : FileHeaderExtended
  typeName : String
  sections : List Section
  nvarStore : Option Unit
  buf : Bytes
  dataOffset : Nat

/-- `Block` (firmwarevolume.go): one block-map entry. -/
structure Block where
  count : Nat
  size : Nat
  deriving Repr, DecidableEq

/-- `FirmwareVolume` (firmwarevolume.go): fixed header fields, block map,
extended header fields, files, and the computed metadata the claims
observe. -/
structure FirmwareVolume where
  fileSystemGUID : Bytes
  length : Nat
  signature : Nat
  attributes : Nat
  headerLen : Nat
  checksum : Nat
  extHeaderOffset : Nat
  reserved : Nat
  revision : Nat
  blocks : List Block
  fvName : Bytes
  extHeaderSize : Nat
  files : List File
  dataOffset : Nat
  fvType : String
  buf : Bytes
  fvOffset : Nat
  resizable : Bool
  freeSpace : Nat

/-! ## File checksums and assembly (`pkg/uefi/file.go`) -/

/-- `Checksum8` (file.go): wrapping 8-bit sum of all bytes.  The Go loop
sums into a `uint8`; summing in `Nat` and reducing `% 256` once gives the
same byte. -/
def Checksum8 (data : Bytes) : Nat := data.sum % 256

/-- Wrapping 8-bit subtraction `a - b` (`uint8` arithmetic). -/
def sub8 (a b : Nat) : Nat := (a % 256 + 256 - b % 256) % 256

/-- `binary.Write` of a `FileHeader` (24 bytes, little-endian; the GUID is
written as its 16 stored bytes). -/
def serializeFileHeader (fh : FileHeader) : Bytes :=
  fh.guid ++ [fh.checksumHeader, fh.checksumFile, fh.fileType, fh.attributes] ++
    fh.size ++ [fh.state]

/-- `binary.Write` of a `FileHeaderExtended` (32 bytes): the plain header
followed by the little-endian `ExtendedSize`. -/
def serializeFileHeaderExt (fh : FileHeaderExtended) : Bytes :=
  serializeFileHeader fh.toFileHeader ++ writeU64LE fh.extendedSize

/-- `File.HeaderLen` (file.go). -/
def HeaderLen (f : File) : Nat :=
  if IsLarge f.header.attributes then FileHeaderExtMinLength else FileHeaderMinLength

/-- `File.ChecksumHeader` (file.go): checksum over the serialized header in
`f.buf` minus `Checksum.File` and `State`. -/
def ChecksumHeader (f : File) : Nat :=
  let headerSize :=
    if IsLarge f.header.attributes then FileHeaderExtMinLength else FileHeaderMinLength
  sub8 (sub8 (Checksum8 (f.buf.take headerSize)) f.header.checksumFile) f.header.state

/-- `File.ChecksumAndAssemble` (file.go): serialize the header, fix up the
header checksum so the header sums to zero, compute the body checksum, then
reserialize (24 or 32 bytes depending on the large attribute) and append the
body. -/
def ChecksumAndAssemble (f : File) (fileData : Bytes) : File :=
  let fh := f.header
  -- binary.Write(&f.Header): all 32 bytes, regardless of the large attribute
  let f1 : File := {f with buf := serializeFileHeaderExt fh}
  -- fh.Checksum.Header -= f.ChecksumHeader()
  let ch' := sub8 fh.checksumHeader (ChecksumHeader f1)
  -- fh.Checksum.File = EmptyBodyChecksum, or 0 - Checksum8(fileData)
  let cf' := if HasChecksum fh.attributes then sub8 0 (Checksum8 fileData)
             else EmptyBodyChecksum
  let fh' := {fh with checksumHeader := ch', checksumFile := cf'}
  let hdr := if IsLarge fh'.attributes then serializeFileHeaderExt fh'
             else serializeFileHeader fh'.toFileHeader
  {f with header := fh', buf := hdr ++ fileData}

/-- `File.SetSize` (file.go): store the size, clear the large attribute,
and if the size exceeds 3 bytes set the large attribute (growing the size by
the extended-header delta when `resizeFile`); finally write the 3-byte
size field (clamped). -/
def SetSize (fh : FileHeaderExtended) (size : Nat) (resizeFile : Bool) :
    FileHeaderExtended :=
  let ext := size
  let attr := setLarge fh.attributes false
  let (ext, attr) :=
    if ext > 0xFFFFFF then
      (if resizeFile then ext + (FileHeaderExtMinLength - FileHeaderMinLength) else ext,
       setLarge attr true)
    else (ext, attr)
  {fh with extendedSize := ext, attributes := attr, size := Write3Size ext}

/-! ## The recursive parser family

`NewFirmwareVolume → NewFile → NewSection → NewFirmwareVolume` (via nested
FV-image sections) is mutually recursive in the source.  The model ties the
knot with a fuel-indexed fixpoint: `parserStep` is one non-recursive layer
that calls the previous layer `rec` for every nested parse, and
`parserAt env fuel` iterates it, bottoming out in `.error .fuel`.  Any
terminating Go parse is reproduced exactly by every sufficiently large
fuel. -/

/-- `SectionMinLength` (part_002). -/
def SectionMinLength : Nat := 0x04

/-- `SectionExtMinLength` (part_002). -/
def SectionExtMinLength : Nat := 0x08

/-- `FirmwareVolumeFixedHeaderSize` (firmwarevolume.go). -/
def FirmwareVolumeFixedHeaderSize : Nat := 56

/-- `FirmwareVolumeMinSize` (firmwarevolume.go): fixed header plus the empty
block that terminates the block list. -/
def FirmwareVolumeMinSize : Nat := FirmwareVolumeFixedHeaderSize + 8

/-- `FirmwareVolumeExtHeaderMinSize` (firmwarevolume.go). -/
def FirmwareVolumeExtHeaderMinSize : Nat := 20

/-- The `NVAR` GUID `cef5b9a3-476d-497f-9fdc-e98143e0422c` in storage byte
order (firmwarevolume.go, via `guid.MustParse`). -/
def NVARguid : Bytes := (guid.Parse "cef5b9a3-476d-497f-9fdc-e98143e0422c").getD []

/-- `FFS1` (firmwarevolume.go). -/
def FFS1guid : Bytes := (guid.Parse "7a9354d9-0468-444a-81ce-0bf617d890df").getD []

/-- `FFS2` (firmwarevolume.go). -/
def FFS2guid : Bytes := (guid.Parse "8c8ce578-8a3d-4f1c-9935-896185c32dd3").getD []

/-- `FFS3` (firmwarevolume.go). -/
def FFS3guid : Bytes := (guid.Parse "5473c07a-3dcb-4dca-bd6f-1e9689e7349a").getD []

/-- `EVSA` (firmwarevolume.go). -/
def EVSAguid : Bytes := (guid.Parse "fff12b8d-7696-4c8b-a985-2747075b4f50").getD []

/-- `EVSA2` (firmwarevolume.go). -/
def EVSA2guid : Bytes := (guid.Parse "00504624-8a59-4eeb-bd0f-6b36e96128e0").getD []

/-- `AppleBoot` (firmwarevolume.go). -/
def AppleBootGuid : Bytes := (guid.Parse "04adeead-61ff-4d31-b6ba-64f8bf901f5a").getD []

/-- `PFH1` (firmwarevolume.go). -/
def PFH1guid : Bytes := (guid.Parse "16b45da2-7d70-4aea-a58d-760e9ecb841d").getD []

/-- `PFH2` (firmwarevolume.go). -/
def PFH2guid : Bytes := (guid.Parse "e360bdba-c3ce-46be-8f37-b231e5cb9f35").getD []

/-- The `FVGUIDs` name map (firmwarevolume.go). -/
def FVGUIDs : List (Bytes × String) :=
  [(FFS1guid, "FFS1"), (FFS2guid, "FFS2"), (FFS3guid, "FFS3"),
   (EVSAguid, "NVRAM_EVSA"), (NVARguid, "NVRAM_NVAR"), (EVSA2guid, "NVRAM_EVSA2"),
   (AppleBootGuid, "APPLE_BOOT"), (PFH1guid, "PFH1"), (PFH2guid, "PFH2")]

/-- `FVGUIDs[...]` lookup; a missing key yields Go's zero string. -/
def lookupFVType (g : Bytes) : String :=
  ((FVGUIDs.find? (fun p => p.1 == g)).map (·.2)).getD ""

/-- `supportedFVs` (firmwarevolume.go): only FFS2 and FFS3 volumes are
parsed beyond their header. -/
def supportedFVs (g : Bytes) : Bool := g == FFS2guid || g == FFS3guid

/-- The `sectionTypeNames` map (part_002); `SectionType.String` falls back
to `"UNKNOWN"` (note `SectionTypeAll` 0x00 has no map entry). -/
def sectionTypeName (t : Nat) : String :=
  if t = 0x01 then "EFI_SECTION_COMPRESSION"
  else if t = 0x02 then "EFI_SECTION_GUID_DEFINED"
  else if t = 0x03 then "EFI_SECTION_DISPOSABLE"
  else if t = 0x10 then "EFI_SECTION_PE32"
  else if t = 0x11 then "EFI_SECTION_PIC"
  else if t = 0x12 then "EFI_SECTION_TE"
  else if t = 0x13 then "EFI_SECTION_DXE_DEPEX"
  else if t = 0x14 then "EFI_SECTION_VERSION"
  else if t = 0x15 then "EFI_SECTION_USER_INTERFACE"
  else if t = 0x16 then "EFI_SECTION_COMPATIBILITY16"
  else if t = 0x17 then "EFI_SECTION_FIRMWARE_VOLUME_IMAGE"
  else if t = 0x18 then "EFI_SECTION_FREEFORM_SUBTYPE_GUID"
  else if t = 0x19 then "EFI_SECTION_RAW"
  else if t = 0x1b then "EFI_SECTION_PEI_DEPEX"
  else if t = 0x1c then "EFI_SECTION_MM_DEPEX"
  else "UNKNOWN"

/-- The section types enumerated in `NewSection`'s recognized-type `case`
list (part_002 lines 368–371). -/
def recognizedSectionTypes : List Nat :=
  [0x00, 0x01, 0x02, 0x03, 0x10, 0x11, 0x12, 0x13, 0x14, 0x15, 0x16, 0x17,
   0x18, 0x19, 0x1b, 0x1c]

/-- The `fileTypeNames` map (file.go); for unmapped types Go formats
`UNKNOWN_FILETYPE_%#x` (the numeric suffix is not modelled). -/
def fileTypeName (t : Nat) : String :=
  if t = 0x01 then "EFI_FV_FILETYPE_RAW"
  else if t = 0x02 then "EFI_FV_FILETYPE_FREEFORM"
  else if t = 0x03 then "EFI_FV_FILETYPE_SECURITY_CORE"
  else if t = 0x04 then "EFI_FV_FILETYPE_PEI_CORE"
  else if t = 0x05 then "EFI_FV_FILETYPE_DXE_CORE"
  else if t = 0x06 then "EFI_FV_FILETYPE_PEIM"
  else if t = 0x07 then "EFI_FV_FILETYPE_DRIVER"
  else if t = 0x08 then "EFI_FV_FILETYPE_COMBINED_PEIM_DRIVER"
  else if t = 0x09 then "EFI_FV_FILETYPE_APPLICATION"
  else if t = 0x0a then "EFI_FV_FILETYPE_MM"
  else if t = 0x0b then "EFI_FV_FILETYPE_FIRMWARE_VOLUME_IMAGE"
  else if t = 0x0c then "EFI_FV_FILETYPE_COMBINED_MM_DXE"
  else if t = 0x0d then "EFI_FV_FILETYPE_MM_CORE"
  else if t = 0x0e then "EFI_FV_FILETYPE_MM_STANDALONE"
  else if t = 0x0f then "EFI_FV_FILETYPE_MM_CORE_STANDALONE"
  else "UNKNOWN_FILETYPE"

/-- `SupportedFiles` (file.go): the file types whose sections are parsed.
`Raw` (0x01) maps to `false` and `PEIM` (0x06) is commented out; a missing
key also reads back `false` in Go. -/
def isSupportedFileType (t : Nat) : Bool :=
  [0x02, 0x03, 0x04, 0x05, 0x07, 0x08, 0x09, 0x0a, 0x0b, 0x0c, 0x0d,
   0x0e, 0x0f].contains t

/-- `parseDepEx`'s loop (part_002): every iteration consumes at least one
byte, so `b.length + 1` fuel always completes the Go loop.  `none` stands
for each of the source's error returns (end of input with no `END`, a GUID
truncated before 16 bytes, an invalid opcode). -/
def parseDepExGo : Nat → Bytes → Option (List DepExOp)
  | 0, _ => none
  | _ + 1, [] => none
  | fuel + 1, b :: rest =>
    match depExOpCodeOf b with
    | none => none
    | some op =>
      if op = .BEFORE ∨ op = .AFTER ∨ op = .PUSH then
        if rest.length < 16 then none
        else
          match parseDepExGo fuel (rest.drop 16) with
          | none => none
          | some ops => some (⟨op, some (rest.take 16)⟩ :: ops)
      else if op = .END then some [⟨op, none⟩]
      else
        match parseDepExGo fuel rest with
        | none => none
        | some ops => some (⟨op, none⟩ :: ops)

/-- `parseDepEx` (part_002). -/
def parseDepEx (b : Bytes) : Option (List DepExOp) := parseDepExGo (b.length + 1) b

/-- Modelled from the spec: `unicode.UCS2ToUTF8` (its file is not among the
provided sources): decode little-endian UCS-2 pairs, stopping at a NUL
(§4.9: "body is a null-terminated UCS-2 LE string → UTF-8 name"). -/
def ucs2Go : Nat → Bytes → List Char
  | 0, _ => []
  | _ + 1, [] => []
  | _ + 1, [_] => []
  | fuel + 1, b0 :: b1 :: rest =>
    if b0 = 0 ∧ b1 = 0 then []
    else Char.ofNat (b0 + 256 * b1) :: ucs2Go fuel rest

/-- Modelled from the spec: see `ucs2Go`. -/
def UCS2ToUTF8 (b : Bytes) : String := String.mk (ucs2Go (b.length + 1) b)

/-- An external compression codec (the implementations are out of scope per
the spec; only the dispatch contract is modelled). -/
structure Codec where
  name : String
  decode : Bytes → Option Bytes

/-- The ambient parsing environment: the `DisableDecompression` global and
the external collaborators (`compression.CompressorFromGUID` and the NVAR
store decoder `NewNVarStore`), none of which are among the provided
sources; the spec scopes them out (interface-only), so they are oracle
parameters of the model.  The `ReadOnly` global only controls buffer
aliasing and is value-irrelevant. -/
structure ParseEnv where
  disableDecompression : Bool
  compressorFromGUID : Bytes → Option Codec
  newNVarStore : Bytes → Option Unit

/-- The block-map loop of `NewFirmwareVolume`: read `{Count, Size}` pairs
until the all-zero terminator; running out of bytes is a `binary.Read`
error.  Every iteration consumes 8 bytes, so `l.length + 1` fuel always
completes the loop. -/
def readBlocksGo : Nat → Bytes → Except PErr (List Block)
  | 0, _ => .error .fuel
  | fuel + 1, l =>
    if l.length < 8 then .error .binaryRead
    else
      let c := readU32LE l
      let s := readU32LE (l.drop 4)
      if c = 0 ∧ s = 0 then .ok []
      else
        match readBlocksGo fuel (l.drop 8) with
        | .error e => .error e
        | .ok bs => .ok (⟨c, s⟩ :: bs)

/-- The block map of a firmware volume, starting right after the 56-byte
fixed header. -/
def readBlockMap (l : Bytes) : Except PErr (List Block) :=
  readBlocksGo (l.length + 1) l

/-- The header phase of `NewFirmwareVolume` (firmwarevolume.go): minimum
size check, fixed-header decode, block map, erase polarity, length bound,
optional extended header, `DataOffset` computation (8-byte aligned) and
buffer slice.  `files`/`freeSpace`/`fvOffset`/`resizable` are set by the
caller's later phases. -/
def newFVCore (data : Bytes) (pol : Option Nat) :
    Except PErr (FirmwareVolume × Option Nat) :=
  if data.length < FirmwareVolumeMinSize then .error .fvTooSmall
  else
    let fileSystemGUID := (data.drop 16).take 16
    let length := readU64LE (data.drop 32)
    let signature := readU32LE (data.drop 40)
    let attributes := readU32LE (data.drop 44)
    let headerLen := readU16LE (data.drop 48)
    let checksum := readU16LE (data.drop 50)
    let extHeaderOffset := readU16LE (data.drop 52)
    let reserved := data.getD 54 0
    let revision := data.getD 55 0
    match readBlockMap (data.drop 56) with
    | .error e => .error e
    | .ok blocks =>
      -- GetErasePolarity: attribute bit 11 selects 0xFF, else 0x00
      match setErasePolarity pol (if attributes &&& 0x800 ≠ 0 then 0xFF else 0x00) with
      | .error e => .error e
      | .ok pol' =>
        if length > data.length then .error .fvLengthTooBig
        else
          let extStep : Except PErr (Option (Bytes × Nat)) :=
            if extHeaderOffset ≠ 0 ∧ FirmwareVolumeExtHeaderMinSize ≤ length ∧
                extHeaderOffset < length - FirmwareVolumeExtHeaderMinSize then
              let r := data.drop extHeaderOffset
              if r.length < 20 then .error .binaryRead
              else .ok (some (r.take 16, readU32LE (r.drop 16)))
            else .ok none
          match extStep with
          | .error e => .error e
          | .ok ext =>
            let (fvName, extHeaderSize, dataOffset0) :=
              match ext with
              | none => (List.replicate 16 0, 0, headerLen)
              | some (n, es) => (n, es, extHeaderOffset + es)
            let dataOffset := Align8 dataOffset0
            .ok ({ fileSystemGUID := fileSystemGUID, length := length,
                   signature := signature, attributes := attributes,
                   headerLen := headerLen, checksum := checksum,
                   extHeaderOffset := extHeaderOffset, reserved := reserved,
                   revision := revision, blocks := blocks, fvName := fvName,
                   extHeaderSize := extHeaderSize, files := [],
                   dataOffset := dataOffset,
                   fvType := lookupFVType fileSystemGUID,
                   buf := data.take length, fvOffset := 0, resizable := false,
                   freeSpace := 0 }, pol')

/-- The header phase of `NewFile` (file.go): header decode, free-space
sentinel, size bound, buffer slice and the raw-NVAR special case.  The
section stream is parsed by the caller. -/
def newFileCore (env : ParseEnv) (buf : Bytes) : Except PErr (Option File) :=
  if buf.length < FileHeaderMinLength then .error .binaryRead
  else
    let g := buf.take 16
    let checksumHeader := buf.getD 16 0
    let checksumFile := buf.getD 17 0
    let fileType := buf.getD 18 0
    let attributes := buf.getD 19 0
    let size := (buf.drop 20).take 3
    let state := buf.getD 23 0
    let sizeStep : Except PErr (Option (Nat × Nat)) :=
      if size = [0xFF, 0xFF, 0xFF] then
        if buf.length < 32 then .error .binaryRead
        else
          let e := readU64LE (buf.drop 24)
          if e = 0xFFFFFFFFFFFFFFFF then .ok none  -- start of free space
          else .ok (some (e, FileHeaderExtMinLength))
      else .ok (some (Read3Size size, FileHeaderMinLength))
    match sizeStep with
    | .error e => .error e
    | .ok none => .ok none
    | .ok (some (extendedSize, dataOffset)) =>
      if extendedSize > buf.length then .error .fileSizeMismatch
      else
        let fbuf := buf.take extendedSize
        let nvStep : Except PErr (Option Unit) :=
          if fileType = 0x01 ∧ g = NVARguid then
            if dataOffset ≥ fbuf.length then .error .nvarDataOffset
            else .ok (env.newNVarStore (fbuf.drop dataOffset))
          else .ok none
        match nvStep with
        | .error e => .error e
        | .ok nv =>
          .ok (some { header := ⟨⟨g, checksumHeader, checksumFile, fileType,
                        attributes, size, state⟩, extendedSize⟩,
                      typeName := fileTypeName fileType, sections := [],
                      nvarStore := nv, buf := fbuf, dataOffset := dataOffset })

/-- The size-decoding phase of `NewSection` (part_002): common header,
recognized-type extended-size handling, unknown-type clamping and the shared
size-versus-buffer check. -/
structure SectionCore where
  size3 : Bytes
  stype : Nat
  extendedSize : Nat
  headerSize : Nat
  sbuf : Bytes

/-- See `SectionCore`. -/
def newSectionCore (buf : Bytes) : Except PErr SectionCore :=
  if buf.length < SectionMinLength then .error .binaryRead
  else
    let size3 := buf.take 3
    let t := buf.getD 3 0
    let sizeStep : Except PErr (Nat × Nat) :=
      if t ∈ recognizedSectionTypes then
        if size3 = [0xFF, 0xFF, 0xFF] then
          -- extended header
          if buf.length < SectionExtMinLength then .error .binaryRead
          else
            let e := readU32LE (buf.drop 4)
            if e = 0xFFFFFFFF then .error .sectionFreeSpace
            else .ok (e, SectionExtMinLength)
        else .ok (Read3Size size3, SectionMinLength)
      else
        -- unknown type: an oversize 3-byte size is clamped to the buffer
        let e := Read3Size size3
        .ok (if e > buf.length then buf.length else e, SectionMinLength)
    match sizeStep with
    | .error e => .error e
    | .ok (extendedSize, headerSize) =>
      if extendedSize > buf.length then .error .sectionSizeMismatch
      else .ok ⟨size3, t, extendedSize, headerSize, buf.take extendedSize⟩

/-- A `Section` with only the common fields of `SectionCore` filled in. -/
def sectionOfCore (c : SectionCore) (fileOrder : Nat) : Section :=
  { size := c.size3, stype := c.stype, extendedSize := c.extendedSize,
    typeName := sectionTypeName c.stype, buf := c.sbuf, fileOrder := fileOrder,
    typeSpecific := none, name := "", buildNumber := 0, version := "",
    depEx := none, encapsulated := [] }

/-- One layer of the mutually recursive parser quadruple; `rec` is used for
every nested parse. -/
structure ParserAPI where
  newFV : Bytes → Nat → Bool → Option Nat → Except PErr (FirmwareVolume × Option Nat)
  fvFiles : Bytes → Nat → Nat → Nat → Option Nat →
    Except PErr (List File × Nat × Option Nat)
  newFile : Bytes → Option Nat → Except PErr (Option File × Option Nat)
  fileSections : Bytes → Nat → Nat → Nat → Option Nat →
    Except PErr (List Section × Option Nat)
  newSection : Bytes → Nat → Option Nat → Except PErr (Section × Option Nat)
  encapSections : Bytes → Nat → Nat → Option Nat →
    Except PErr (List Section × Option Nat)

/-- `NewSection` minus the size phase: the type-specific switch
(part_002 lines 407–476). -/
def stepNewSection (env : ParseEnv) (rec : ParserAPI) (buf : Bytes)
    (fileOrder : Nat) (pol : Option Nat) : Except PErr (Section × Option Nat) :=
  match newSectionCore buf with
  | .error e => .error e
  | .ok c =>
    let s0 := sectionOfCore c fileOrder
    if c.stype = 0x02 then  -- EFI_SECTION_GUID_DEFINED
      -- binary.Read of SectionGUIDDefinedHeader at the reader position
      if buf.length < c.headerSize + 20 then .error .binaryRead
      else
        let r := buf.drop c.headerSize
        let g := r.take 16
        let dOff := readU16LE (r.drop 16)
        let attrs := readU16LE (r.drop 18)
        let (compression, encapBuf) :=
          if attrs &&& 1 ≠ 0 ∧ ¬ env.disableDecompression then
            match env.compressorFromGUID g with
            | some codec =>
              match codec.decode (buf.drop dOff) with
              | some eb => (codec.name, eb)
              | none => ("UNKNOWN", ([] : Bytes))  -- decode failure: logged only
            | none => ("UNKNOWN", ([] : Bytes))
          else ("", ([] : Bytes))
        match rec.encapSections encapBuf 0 0 pol with
        | .error e => .error e  -- "error parsing encapsulated section": fatal
        | .ok (encap, pol') =>
          let ts : SectionGUIDDefined := ⟨g, dOff, attrs, compression⟩
          .ok ({ s0 with typeSpecific := some ts, encapsulated := encap }, pol')
    else if c.stype = 0x15 then  -- EFI_SECTION_USER_INTERFACE
      if c.sbuf.length ≤ c.headerSize then .error .oversizeHdr
      else .ok ({ s0 with name := UCS2ToUTF8 (c.sbuf.drop c.headerSize) }, pol)
    else if c.stype = 0x14 then  -- EFI_SECTION_VERSION
      if c.sbuf.length ≤ c.headerSize + 2 then .error .oversizeHdr
      else .ok ({ s0 with
              buildNumber := readU16LE (c.sbuf.drop c.headerSize),
              version := UCS2ToUTF8 (c.sbuf.drop (c.headerSize + 2)) }, pol)
    else if c.stype = 0x17 then  -- EFI_SECTION_FIRMWARE_VOLUME_IMAGE
      if c.sbuf.length ≤ c.headerSize then .error .oversizeHdr
      else
        match rec.newFV (c.sbuf.drop c.headerSize) 0 true pol with
        | .error e => .error e
        | .ok (_, pol') => .ok (s0, pol')  -- nested FV not retained (type cycle)
    else if c.stype = 0x13 ∨ c.stype = 0x1b ∨ c.stype = 0x1c then  -- DepEx
      if c.sbuf.length ≤ c.headerSize then .error .oversizeHdr
      else
        -- a parseDepEx error is only logged (log.Warnf); the section is
        -- returned without a DepEx list
        .ok ({ s0 with depEx := parseDepEx (c.sbuf.drop c.headerSize) }, pol)
    else .ok (s0, pol)

/-- The section-stream loop of `NewFile` (file.go lines 460–473). -/
def stepFileSections (env : ParseEnv) (rec : ParserAPI) (fbuf : Bytes)
    (extSize fileOrder offset : Nat) (pol : Option Nat) :
    Except PErr (List Section × Option Nat) :=
  if offset < extSize then
    match rec.newSection (fbuf.drop offset) fileOrder pol with
    | .error e => .error e
    | .ok (s, pol') =>
      if s.extendedSize = 0 then .error .invalidSectionLength
      else
        match rec.fileSections fbuf extSize (fileOrder + 1)
            (Align4 (offset + s.extendedSize)) pol' with
        | .error e => .error e
        | .ok (rest, pol'') => .ok (s :: rest, pol'')
  else .ok ([], pol)

/-- The encapsulated-section loop of the GUID-defined case of `NewSection`
(part_002 lines 433–443). -/
def stepEncapSections (env : ParseEnv) (rec : ParserAPI) (encapBuf : Bytes)
    (i offset : Nat) (pol : Option Nat) : Except PErr (List Section × Option Nat) :=
  if offset < encapBuf.length then
    match rec.newSection (encapBuf.drop offset) i pol with
    | .error e => .error e
    | .ok (s, pol') =>
      match rec.encapSections encapBuf (i + 1)
          (Align4 (offset + s.extendedSize)) pol' with
      | .error e => .error e
      | .ok (rest, pol'') => .ok (s :: rest, pol'')
  else .ok ([], pol)

/-- `NewFile` (file.go): header phase, then the section stream for supported
file types. -/
def stepNewFile (env : ParseEnv) (rec : ParserAPI) (buf : Bytes)
    (pol : Option Nat) : Except PErr (Option File × Option Nat) :=
  match newFileCore env buf with
  | .error e => .error e
  | .ok none => .ok (none, pol)
  | .ok (some f) =>
    if isSupportedFileType f.header.fileType then
      match rec.fileSections f.buf f.header.extendedSize 0 f.dataOffset pol with
      | .error e => .error e
      | .ok (secs, pol') => .ok (some { f with sections := secs }, pol')
    else .ok (some f, pol)

/-- The file-stream loop of `NewFirmwareVolume` (firmwarevolume.go lines
265–287).  `length` is `fv.Length`; `lh = fv.Length - FileHeaderMinLength`
in `uint64` arithmetic; `FreeSpace = fv.Length - offset` likewise. -/
def stepFVFiles (env : ParseEnv) (rec : ParserAPI) (data : Bytes)
    (length lh offset : Nat) (pol : Option Nat) :
    Except PErr (List File × Nat × Option Nat) :=
  if offset < lh then
    let off := Align8 offset
    if data.length ≤ off then .error .offsetBeyondFV
    else
      match rec.newFile (data.drop off) pol with
      | .error e => .error e
      | .ok (none, pol') =>
        -- reached free space: record it and stop iterating
        .ok ([], (length + 18446744073709551616 - off) % 18446744073709551616, pol')
      | .ok (some f, pol') =>
        if f.header.extendedSize = 0 then .error .invalidFileLength
        else
          match rec.fvFiles data length lh (off + f.header.extendedSize) pol' with
          | .error e => .error e
          | .ok (files, free, pol'') => .ok (f :: files, free, pol'')
  else .ok ([], 0, pol)

/-- `NewFirmwareVolume` (firmwarevolume.go): header phase, then the file
stream for supported (FFS2/FFS3) volumes. -/
def stepNewFV (env : ParseEnv) (rec : ParserAPI) (data : Bytes) (fvOffset : Nat)
    (resizable : Bool) (pol : Option Nat) :
    Except PErr (FirmwareVolume × Option Nat) :=
  match newFVCore data pol with
  | .error e => .error e
  | .ok (fv0, pol') =>
    let fv1 := { fv0 with fvOffset := fvOffset, resizable := resizable }
    if supportedFVs fv1.fileSystemGUID then
      let lh := (fv1.length + 18446744073709551616 - FileHeaderMinLength) %
        18446744073709551616
      match rec.fvFiles data fv1.length lh fv1.dataOffset pol' with
      | .error e => .error e
      | .ok (files, free, pol'') =>
        .ok ({ fv1 with files := files, freeSpace := free }, pol'')
    else .ok (fv1, pol')

/-- One non-recursive layer of the parser family. -/
def parserStep (env : ParseEnv) (rec : ParserAPI) : ParserAPI where
  newFV := stepNewFV env rec
  fvFiles := stepFVFiles env rec
  newFile := stepNewFile env rec
  fileSections := stepFileSections env rec
  newSection := stepNewSection env rec
  encapSections := stepEncapSections env rec

/-- The zero-fuel layer: every call reports fuel exhaustion. -/
def failAPI : ParserAPI where
  newFV := fun _ _ _ _ => .error .fuel
  fvFiles := fun _ _ _ _ _ => .error .fuel
  newFile := fun _ _ => .error .fuel
  fileSections := fun _ _ _ _ _ => .error .fuel
  newSection := fun _ _ _ => .error .fuel
  encapSections := fun _ _ _ _ => .error .fuel

/-- The fuel-indexed parser family. -/
def parserAt (env : ParseEnv) : Nat → ParserAPI
  | 0 => failAPI
  | fuel + 1 => parserStep env (parserAt env fuel)

/-- `NewFirmwareVolume` at a given fuel. -/
def NewFirmwareVolume (env : ParseEnv) (fuel : Nat) (data : Bytes)
    (fvOffset : Nat) (resizable : Bool) (pol : Option Nat) :
    Except PErr (FirmwareVolume × Option Nat) :=
  (parserAt env fuel).newFV data fvOffset resizable pol

/-- `NewFile` at a given fuel. -/
def NewFile (env : ParseEnv) (fuel : Nat) (buf : Bytes) (pol : Option Nat) :
    Except PErr (Option File × Option Nat) :=
  (parserAt env fuel).newFile buf pol

/-- `NewSection` at a given fuel. -/
def NewSection (env : ParseEnv) (fuel : Nat) (buf : Bytes) (fileOrder : Nat)
    (pol : Option Nat) : Except PErr (Section × Option Nat) :=
  (parserAt env fuel).newSection buf fileOrder pol

/-! ## Concrete inputs used by closed evaluations -/

/-- A concrete environment: decompression enabled but no codecs and no NVAR
decoder available. -/
def emptyEnv : ParseEnv := ⟨false, fun _ => none, fun _ => none⟩

/-- An 84-byte firmware volume whose extended header would end exactly at
`Length` (`ExtHeaderOffset = 64`, `Length = 84`): 56-byte fixed header, one
zero terminator block, then 20 bytes of extended header carrying
`ExtHeaderSize = 24`. -/
def fvC5data : Bytes :=
  List.replicate 16 0 ++ List.replicate 16 0xEE ++
  [84, 0, 0, 0, 0, 0, 0, 0] ++ fvSig ++ [0, 0, 0, 0] ++
  [56, 0] ++ [0, 0] ++ [64, 0] ++ [0, 2] ++
  List.replicate 8 0 ++ List.replicate 16 0xAB ++ [24, 0, 0, 0]

/-- A minimal 64-byte FFS2 firmware volume: fixed header (`Length = 64`,
`HeaderLen = 56`, no extended header) and the zero terminator block. -/
def fv64data : Bytes :=
  List.replicate 16 0 ++ FFS2guid ++ [64, 0, 0, 0, 0, 0, 0, 0] ++
  [0, 0, 0, 0] ++ [0, 0, 0, 0] ++ [56, 0] ++ [0, 0] ++ [0, 0] ++ [0, 2] ++
  List.replicate 8 0

/-- The firmware volume parsed from `fv64data`. -/
def fv64 : FirmwareVolume :=
  { fileSystemGUID := FFS2guid, length := 64, signature := 0, attributes := 0,
    headerLen := 56, checksum := 0, extHeaderOffset := 0, reserved := 0,
    revision := 2, blocks := [], fvName := List.replicate 16 0,
    extHeaderSize := 0, files := [], dataOffset := 56, fvType := "FFS2",
    buf := fv64data.take 64, fvOffset := 0, resizable := true, freeSpace := 0 }

/-- A 32-byte free-space sentinel file header: `Size = {FF,FF,FF}` and an
all-ones 64-bit `ExtendedSize`. -/
def sentinelFile : Bytes :=
  List.replicate 16 0xFF ++ [0, 0, 0xF0, 0] ++ [0xFF, 0xFF, 0xFF] ++ [0xF8] ++
    List.replicate 8 0xFF

/-- A 24-byte file header whose 3-byte `Size` is `{0,0,0}` (so
`ExtendedSize` decodes to 0): zero GUID and integrity fields, file type
`0xF0` (unknown, so no section parsing), zero attributes and state. -/
def zeroSizeFile : Bytes :=
  List.replicate 16 0 ++ [0, 0, 0xF0, 0] ++ [0, 0, 0] ++ [0]

/-- The `File` value `NewFile` produces for `zeroSizeFile`. -/
def zeroSizeParsedFile : File :=
  { header := ⟨⟨List.replicate 16 0, 0, 0, 0xF0, 0, [0, 0, 0], 0⟩, 0⟩,
    typeName := fileTypeName 0xF0, sections := [], nvarStore := none,
    buf := [], dataOffset := FileHeaderMinLength }

-- ===== end of definitions; the theorem part starts here.

/-! ## Theorems -/

namespace guid

theorem fromHexChar_toUpHexChar : ∀ d, d < 16 → fromHexChar (toUpHexChar d) = some d := by decide

theorem toUpHexChar_ne_hyphen : ∀ d, d < 16 → (toUpHexChar d != '-') = true := by decide

theorem filter_byteHex (b : Nat) (hb : b < 256) (l : List Char) :
    (byteHex b ++ l).filter (· != '-') = byteHex b ++ l.filter (· != '-') := by
  have h1 : b / 16 < 16 := by omega
  have h2 : b % 16 < 16 := by omega
  simp [byteHex, List.filter, toUpHexChar_ne_hyphen _ h1, toUpHexChar_ne_hyphen _ h2]

theorem hexDecode_byteHex (b : Nat) (hb : b < 256) (l : List Char) :
    hexDecode (byteHex b ++ l) = (hexDecode l).map (fun bs => b :: bs) := by
  have h1 : b / 16 < 16 := by omega
  have h2 : b % 16 < 16 := by omega
  have e : 16 * (b / 16) + b % 16 = b := by omega
  simp only [byteHex, List.cons_append, List.nil_append, hexDecode,
    fromHexChar_toUpHexChar _ h1, fromHexChar_toUpHexChar _ h2]
  cases hx : hexDecode l <;> simp [hx, e]

theorem upHex_exists (c : Char) (h : isUpHexChar c = true) :
    ∃ d, d < 16 ∧ fromHexChar c = some d ∧ toUpHexChar d = c ∧ (c != '-') = true := by
  simp only [isUpHexChar, Bool.or_eq_true, Bool.and_eq_true, decide_eq_true_eq] at h
  have h45 : ('-').toNat = 45 := rfl
  rcases h with ⟨h1, h2⟩ | ⟨h1, h2⟩
  · refine ⟨c.toNat - 48, by omega, ?_, ?_, ?_⟩
    · simp only [fromHexChar, if_pos (And.intro h1 h2)]
    · have e : 48 + (c.toNat - 48) = c.toNat := by omega
      simp only [toUpHexChar, if_pos (show c.toNat - 48 < 10 by omega), e, Char.ofNat_toNat]
    · refine bne_iff_ne.mpr ?_
      intro he; subst he; omega
  · refine ⟨c.toNat - 55, by omega, ?_, ?_, ?_⟩
    · simp only [fromHexChar]
      rw [if_neg (by omega), if_neg (by omega), if_pos (And.intro h1 h2)]
    · have e : 55 + (c.toNat - 55) = c.toNat := by omega
      simp only [toUpHexChar, if_neg (show ¬ (c.toNat - 55 < 10) by omega), e, Char.ofNat_toNat]
    · refine bne_iff_ne.mpr ?_
      intro he; subst he; omega
set_option maxHeartbeats 1000000 in
theorem parse_format_core (g0 g1 g2 g3 g4 g5 g6 g7 g8 g9 g10 g11 g12 g13 g14 g15 : Nat)
    (h0 : g0 < 256) (h1 : g1 < 256) (h2 : g2 < 256) (h3 : g3 < 256) (h4 : g4 < 256) (h5 : g5 < 256) (h6 : g6 < 256) (h7 : g7 < 256) (h8 : g8 < 256) (h9 : g9 < 256) (h10 : g10 < 256) (h11 : g11 < 256) (h12 : g12 < 256) (h13 : g13 < 256) (h14 : g14 < 256) (h15 : g15 < 256) :
    Parse (GUIDString [g0, g1, g2, g3, g4, g5, g6, g7, g8, g9, g10, g11, g12, g13, g14, g15]) = some [g0, g1, g2, g3, g4, g5, g6, g7, g8, g9, g10, g11, g12, g13, g14, g15] := by
  have f1_3 : fromHexChar (toUpHexChar (g3 / 16)) = some (g3 / 16) := fromHexChar_toUpHexChar _ (by omega)
  have f2_3 : fromHexChar (toUpHexChar (g3 % 16)) = some (g3 % 16) := fromHexChar_toUpHexChar _ (by omega)
  have n1_3 : (toUpHexChar (g3 / 16) != '-') = true := toUpHexChar_ne_hyphen _ (by omega)
  have n2_3 : (toUpHexChar (g3 % 16) != '-') = true := toUpHexChar_ne_hyphen _ (by omega)
  have e_3 : 16 * (g3 / 16) + g3 % 16 = g3 := by omega
  have f1_2 : fromHexChar (toUpHexChar (g2 / 16)) = some (g2 / 16) := fromHexChar_toUpHexChar _ (by omega)
  have f2_2 : fromHexChar (toUpHexChar (g2 % 16)) = some (g2 % 16) := fromHexChar_toUpHexChar _ (by omega)
  have n1_2 : (toUpHexChar (g2 / 16) != '-') = true := toUpHexChar_ne_hyphen _ (by omega)
  have n2_2 : (toUpHexChar (g2 % 16) != '-') = true := toUpHexChar_ne_hyphen _ (by omega)
  have e_2 : 16 * (g2 / 16) + g2 % 16 = g2 := by omega
  have f1_1 : fromHexChar (toUpHexChar (g1 / 16)) = some (g1 / 16) := fromHexChar_toUpHexChar _ (by omega)
  have f2_1 : fromHexChar (toUpHexChar (g1 % 16)) = some (g1 % 16) := fromHexChar_toUpHexChar _ (by omega)
  have n1_1 : (toUpHexChar (g1 / 16) != '-') = true := toUpHexChar_ne_hyphen _ (by omega)
  have n2_1 : (toUpHexChar (g1 % 16) != '-') = true := toUpHexChar_ne_hyphen _ (by omega)
  have e_1 : 16 * (g1 / 16) + g1 % 16 = g1 := by omega
  have f1_0 : fromHexChar (toUpHexChar (g0 / 16)) = some (g0 / 16) := fromHexChar_toUpHexChar _ (by omega)
  have f2_0 : fromHexChar (toUpHexChar (g0 % 16)) = some (g0 % 16) := fromHexChar_toUpHexChar _ (by omega)
  have n1_0 : (toUpHexChar (g0 / 16) != '-') = true := toUpHexChar_ne_hyphen _ (by omega)
  have n2_0 : (toUpHexChar (g0 % 16) != '-') = true := toUpHexChar_ne_hyphen _ (by omega)
  have e_0 : 16 * (g0 / 16) + g0 % 16 = g0 := by omega
  have f1_5 : fromHexChar (toUpHexChar (g5 / 16)) = some (g5 / 16) := fromHexChar_toUpHexChar _ (by omega)
  have f2_5 : fromHexChar (toUpHexChar (g5 % 16)) = some (g5 % 16) := fromHexChar_toUpHexChar _ (by omega)
  have n1_5 : (toUpHexChar (g5 / 16) != '-') = true := toUpHexChar_ne_hyphen _ (by omega)
  have n2_5 : (toUpHexChar (g5 % 16) != '-') = true := toUpHexChar_ne_hyphen _ (by omega)
  have e_5 : 16 * (g5 / 16) + g5 % 16 = g5 := by omega
  have f1_4 : fromHexChar (toUpHexChar (g4 / 16)) = some (g4 / 16) := fromHexChar_toUpHexChar _ (by omega)
  have f2_4 : fromHexChar (toUpHexChar (g4 % 16)) = some (g4 % 16) := fromHexChar_toUpHexChar _ (by omega)
  have n1_4 : (toUpHexChar (g4 / 16) != '-') = true := toUpHexChar_ne_hyphen _ (by omega)
  have n2_4 : (toUpHexChar (g4 % 16) != '-') = true := toUpHexChar_ne_hyphen _ (by omega)
  have e_4 : 16 * (g4 / 16) + g4 % 16 = g4 := by omega
  have f1_7 : fromHexChar (toUpHexChar (g7 / 16)) = some (g7 / 16) := fromHexChar_toUpHexChar _ (by omega)
  have f2_7 : fromHexChar (toUpHexChar (g7 % 16)) = some (g7 % 16) := fromHexChar_toUpHexChar _ (by omega)
  have n1_7 : (toUpHexChar (g7 / 16) != '-') = true := toUpHexChar_ne_hyphen _ (by omega)
  have n2_7 : (toUpHexChar (g7 % 16) != '-') = true := toUpHexChar_ne_hyphen _ (by omega)
  have e_7 : 16 * (g7 / 16) + g7 % 16 = g7 := by omega
  have f1_6 : fromHexChar (toUpHexChar (g6 / 16)) = some (g6 / 16) := fromHexChar_toUpHexChar _ (by omega)
  have f2_6 : fromHexChar (toUpHexChar (g6 % 16)) = some (g6 % 16) := fromHexChar_toUpHexChar _ (by omega)
  have n1_6 : (toUpHexChar (g6 / 16) != '-') = true := toUpHexChar_ne_hyphen _ (by omega)
  have n2_6 : (toUpHexChar (g6 % 16) != '-') = true := toUpHexChar_ne_hyphen _ (by omega)
  have e_6 : 16 * (g6 / 16) + g6 % 16 = g6 := by omega
  have f1_8 : fromHexChar (toUpHexChar (g8 / 16)) = some (g8 / 16) := fromHexChar_toUpHexChar _ (by omega)
  have f2_8 : fromHexChar (toUpHexChar (g8 % 16)) = some (g8 % 16) := fromHexChar_toUpHexChar _ (by omega)
  have n1_8 : (toUpHexChar (g8 / 16) != '-') = true := toUpHexChar_ne_hyphen _ (by omega)
  have n2_8 : (toUpHexChar (g8 % 16) != '-') = true := toUpHexChar_ne_hyphen _ (by omega)
  have e_8 : 16 * (g8 / 16) + g8 % 16 = g8 := by omega
  have f1_9 : fromHexChar (toUpHexChar (g9 / 16)) = some (g9 / 16) := fromHexChar_toUpHexChar _ (by omega)
  have f2_9 : fromHexChar (toUpHexChar (g9 % 16)) = some (g9 % 16) := fromHexChar_toUpHexChar _ (by omega)
  have n1_9 : (toUpHexChar (g9 / 16) != '-') = true := toUpHexChar_ne_hyphen _ (by omega)
  have n2_9 : (toUpHexChar (g9 % 16) != '-') = true := toUpHexChar_ne_hyphen _ (by omega)
  have e_9 : 16 * (g9 / 16) + g9 % 16 = g9 := by omega
  have f1_10 : fromHexChar (toUpHexChar (g10 / 16)) = some (g10 / 16) := fromHexChar_toUpHexChar _ (by omega)
  have f2_10 : fromHexChar (toUpHexChar (g10 % 16)) = some (g10 % 16) := fromHexChar_toUpHexChar _ (by omega)
  have n1_10 : (toUpHexChar (g10 / 16) != '-') = true := toUpHexChar_ne_hyphen _ (by omega)
  have n2_10 : (toUpHexChar (g10 % 16) != '-') = true := toUpHexChar_ne_hyphen _ (by omega)
  have e_10 : 16 * (g10 / 16) + g10 % 16 = g10 := by omega
  have f1_11 : fromHexChar (toUpHexChar (g11 / 16)) = some (g11 / 16) := fromHexChar_toUpHexChar _ (by omega)
  have f2_11 : fromHexChar (toUpHexChar (g11 % 16)) = some (g11 % 16) := fromHexChar_toUpHexChar _ (by omega)
  have n1_11 : (toUpHexChar (g11 / 16) != '-') = true := toUpHexChar_ne_hyphen _ (by omega)
  have n2_11 : (toUpHexChar (g11 % 16) != '-') = true := toUpHexChar_ne_hyphen _ (by omega)
  have e_11 : 16 * (g11 / 16) + g11 % 16 = g11 := by omega
  have f1_12 : fromHexChar (toUpHexChar (g12 / 16)) = some (g12 / 16) := fromHexChar_toUpHexChar _ (by omega)
  have f2_12 : fromHexChar (toUpHexChar (g12 % 16)) = some (g12 % 16) := fromHexChar_toUpHexChar _ (by omega)
  have n1_12 : (toUpHexChar (g12 / 16) != '-') = true := toUpHexChar_ne_hyphen _ (by omega)
  have n2_12 : (toUpHexChar (g12 % 16) != '-') = true := toUpHexChar_ne_hyphen _ (by omega)
  have e_12 : 16 * (g12 / 16) + g12 % 16 = g12 := by omega
  have f1_13 : fromHexChar (toUpHexChar (g13 / 16)) = some (g13 / 16) := fromHexChar_toUpHexChar _ (by omega)
  have f2_13 : fromHexChar (toUpHexChar (g13 % 16)) = some (g13 % 16) := fromHexChar_toUpHexChar _ (by omega)
  have n1_13 : (toUpHexChar (g13 / 16) != '-') = true := toUpHexChar_ne_hyphen _ (by omega)
  have n2_13 : (toUpHexChar (g13 % 16) != '-') = true := toUpHexChar_ne_hyphen _ (by omega)
  have e_13 : 16 * (g13 / 16) + g13 % 16 = g13 := by omega
  have f1_14 : fromHexChar (toUpHexChar (g14 / 16)) = some (g14 / 16) := fromHexChar_toUpHexChar _ (by omega)
  have f2_14 : fromHexChar (toUpHexChar (g14 % 16)) = some (g14 % 16) := fromHexChar_toUpHexChar _ (by omega)
  have n1_14 : (toUpHexChar (g14 / 16) != '-') = true := toUpHexChar_ne_hyphen _ (by omega)
  have n2_14 : (toUpHexChar (g14 % 16) != '-') = true := toUpHexChar_ne_hyphen _ (by omega)
  have e_14 : 16 * (g14 / 16) + g14 % 16 = g14 := by omega
  have f1_15 : fromHexChar (toUpHexChar (g15 / 16)) = some (g15 / 16) := fromHexChar_toUpHexChar _ (by omega)
  have f2_15 : fromHexChar (toUpHexChar (g15 % 16)) = some (g15 % 16) := fromHexChar_toUpHexChar _ (by omega)
  have n1_15 : (toUpHexChar (g15 / 16) != '-') = true := toUpHexChar_ne_hyphen _ (by omega)
  have n2_15 : (toUpHexChar (g15 % 16) != '-') = true := toUpHexChar_ne_hyphen _ (by omega)
  have e_15 : 16 * (g15 / 16) + g15 % 16 = g15 := by omega
  have hs : GUIDString [g0, g1, g2, g3, g4, g5, g6, g7, g8, g9, g10, g11, g12, g13, g14, g15] = String.mk [toUpHexChar (g3 / 16),
      toUpHexChar (g3 % 16),
      toUpHexChar (g2 / 16),
      toUpHexChar (g2 % 16),
      toUpHexChar (g1 / 16),
      toUpHexChar (g1 % 16),
      toUpHexChar (g0 / 16),
      toUpHexChar (g0 % 16),
      '-',
      toUpHexChar (g5 / 16),
      toUpHexChar (g5 % 16),
      toUpHexChar (g4 / 16),
      toUpHexChar (g4 % 16),
      '-',
      toUpHexChar (g7 / 16),
      toUpHexChar (g7 % 16),
      toUpHexChar (g6 / 16),
      toUpHexChar (g6 % 16),
      '-',
      toUpHexChar (g8 / 16),
      toUpHexChar (g8 % 16),
      toUpHexChar (g9 / 16),
      toUpHexChar (g9 % 16),
      '-',
      toUpHexChar (g10 / 16),
      toUpHexChar (g10 % 16),
      toUpHexChar (g11 / 16),
      toUpHexChar (g11 % 16),
      toUpHexChar (g12 / 16),
      toUpHexChar (g12 % 16),
      toUpHexChar (g13 / 16),
      toUpHexChar (g13 % 16),
      toUpHexChar (g14 / 16),
      toUpHexChar (g14 % 16),
      toUpHexChar (g15 / 16),
      toUpHexChar (g15 % 16)] := by
    simp [GUIDString, revGroups, byteHex]
  rw [hs]
  simp only [Parse, List.filter, n1_3, n2_3, n1_2, n2_2, n1_1, n2_1, n1_0, n2_0, n1_5, n2_5, n1_4, n2_4, n1_7, n2_7, n1_6, n2_6, n1_8, n2_8, n1_9, n2_9, n1_10, n2_10, n1_11, n2_11, n1_12, n2_12, n1_13, n2_13, n1_14, n2_14, n1_15, n2_15, bne_self_eq_false]
  simp only [hexDecode, f1_3, f2_3, f1_2, f2_2, f1_1, f2_1, f1_0, f2_0, f1_5, f2_5, f1_4, f2_4, f1_7, f2_7, f1_6, f2_6, f1_8, f2_8, f1_9, f2_9, f1_10, f2_10, f1_11, f2_11, f1_12, f2_12, f1_13, f2_13, f1_14, f2_14, f1_15, f2_15, e_3, e_2, e_1, e_0, e_5, e_4, e_7, e_6, e_8, e_9, e_10, e_11, e_12, e_13, e_14, e_15]
  simp [revGroups]
theorem hexDecode_sound : ∀ l bs, hexDecode l = some bs →
    l.length = 2 * bs.length ∧ ∀ c ∈ l, (fromHexChar c).isSome = true
  | [], bs => by
    intro h
    simp only [hexDecode, Option.some.injEq] at h
    subst h
    simp
  | [c], bs => by
    intro h
    simp [hexDecode] at h
  | c1 :: c2 :: rest, bs => by
    intro h
    simp only [hexDecode] at h
    cases hf1 : fromHexChar c1 with
    | none => rw [hf1] at h; simp at h
    | some v1 =>
      cases hf2 : fromHexChar c2 with
      | none => rw [hf1, hf2] at h; simp at h
      | some v2 =>
        cases hr : hexDecode rest with
        | none => rw [hf1, hf2, hr] at h; simp at h
        | some bs2 =>
          rw [hf1, hf2, hr] at h
          simp only [Option.some.injEq] at h
          subst h
          obtain whir := hexDecode_sound rest bs2 hr
          refine ⟨by simp [whir.1]; ring, ?_⟩
          intro c hm
          simp only [List.mem_cons] at hm
          rcases hm with rfl | rfl | hm
          · simp [hf1]
          · simp [hf2]
          · exact whir.2 c hm

theorem parse_format_all (g : Bytes) (hlen : g.length = 16)
    (hb : ∀ b ∈ g, b < 256) : Parse (GUIDString g) = some g := by
  rcases g with _ | ⟨g0, g⟩
  · simp at hlen
  rcases g with _ | ⟨g1, g⟩
  · simp at hlen
  rcases g with _ | ⟨g2, g⟩
  · simp at hlen
  rcases g with _ | ⟨g3, g⟩
  · simp at hlen
  rcases g with _ | ⟨g4, g⟩
  · simp at hlen
  rcases g with _ | ⟨g5, g⟩
  · simp at hlen
  rcases g with _ | ⟨g6, g⟩
  · simp at hlen
  rcases g with _ | ⟨g7, g⟩
  · simp at hlen
  rcases g with _ | ⟨g8, g⟩
  · simp at hlen
  rcases g with _ | ⟨g9, g⟩
  · simp at hlen
  rcases g with _ | ⟨g10, g⟩
  · simp at hlen
  rcases g with _ | ⟨g11, g⟩
  · simp at hlen
  rcases g with _ | ⟨g12, g⟩
  · simp at hlen
  rcases g with _ | ⟨g13, g⟩
  · simp at hlen
  rcases g with _ | ⟨g14, g⟩
  · simp at hlen
  rcases g with _ | ⟨g15, g⟩
  · simp at hlen
  rcases g with _ | ⟨gex, g⟩
  rotate_left
  · simp at hlen
  exact parse_format_core g0 g1 g2 g3 g4 g5 g6 g7 g8 g9 g10 g11 g12 g13 g14 g15 (hb g0 (by simp)) (hb g1 (by simp)) (hb g2 (by simp)) (hb g3 (by simp)) (hb g4 (by simp)) (hb g5 (by simp)) (hb g6 (by simp)) (hb g7 (by simp)) (hb g8 (by simp)) (hb g9 (by simp)) (hb g10 (by simp)) (hb g11 (by simp)) (hb g12 (by simp)) (hb g13 (by simp)) (hb g14 (by simp)) (hb g15 (by simp))

theorem upHex_ne_hyphen (c : Char) (h : isUpHexChar c = true) : (c != '-') = true := by
  obtain ⟨_, _, _, _, hne⟩ := upHex_exists c h
  exact hne

theorem hexDecode_of_hex : ∀ (cs : List Char) (n : Nat),
    (∀ c ∈ cs, isUpHexChar c = true) → cs.length = 2 * n →
    ∃ bs, hexDecode cs = some bs ∧ bs.length = n ∧ (∀ b ∈ bs, b < 256) ∧
      bs.flatMap byteHex = cs
  | [], n => by
    intro _ hlen
    simp only [List.length_nil] at hlen
    exact ⟨[], rfl, by simp only [List.length_nil]; omega, by simp, by simp⟩
  | [c], n => by
    intro _ hlen
    simp only [List.length_cons, List.length_nil] at hlen
    omega
  | c1 :: c2 :: rest, n => by
    intro hhex hlen
    simp only [List.length_cons] at hlen
    obtain ⟨d1, hlt1, hf1, ht1, _⟩ := upHex_exists c1 (hhex c1 (by simp))
    obtain ⟨d2, hlt2, hf2, ht2, _⟩ := upHex_exists c2 (hhex c2 (by simp))
    obtain ⟨bs, hd, hbl, hbb, hfm⟩ := hexDecode_of_hex rest (n - 1)
      (fun c hc => hhex c (by simp [hc])) (by omega)
    refine ⟨(16 * d1 + d2) :: bs, ?_, by simp only [List.length_cons, hbl]; omega, ?_, ?_⟩
    · simp only [hexDecode, hf1, hf2, hd]
    · intro b hb
      rcases List.mem_cons.mp hb with rfl | hb
      · omega
      · exact hbb b hb
    · simp only [List.flatMap_cons, hfm, byteHex]
      rw [show (16 * d1 + d2) / 16 = d1 by omega, show (16 * d1 + d2) % 16 = d2 by omega,
        ht1, ht2]
      simp

theorem flatMap_byteHex_take : ∀ (bs : Bytes) (k : Nat),
    (bs.take k).flatMap byteHex = (bs.flatMap byteHex).take (2 * k)
  | _, 0 => by simp
  | [], _ + 1 => by simp
  | b :: bs, k + 1 => by
    rw [List.take_succ_cons, List.flatMap_cons, List.flatMap_cons,
      flatMap_byteHex_take bs k]
    rw [show 2 * (k + 1) = (byteHex b).length + 2 * k from by
      simp only [byteHex, List.length_cons, List.length_nil]; omega]
    rw [List.take_append]

theorem flatMap_byteHex_drop : ∀ (bs : Bytes) (k : Nat),
    (bs.drop k).flatMap byteHex = (bs.flatMap byteHex).drop (2 * k)
  | _, 0 => by simp
  | [], _ + 1 => by simp
  | b :: bs, k + 1 => by
    rw [List.drop_succ_cons, List.flatMap_cons, flatMap_byteHex_drop bs k]
    rw [show 2 * (k + 1) = (byteHex b).length + 2 * k from by
      simp only [byteHex, List.length_cons, List.length_nil]; omega]
    rw [List.drop_append]

set_option maxHeartbeats 1000000 in
theorem GUIDString_flat (u : Bytes) (hlen : u.length = 16) :
    GUIDString (revGroups u) = String.mk
      ((u.take 4).flatMap byteHex ++ '-' ::
       (((u.drop 4).take 2).flatMap byteHex ++ '-' ::
        (((u.drop 6).take 2).flatMap byteHex ++ '-' ::
         (((u.drop 8).take 2).flatMap byteHex ++ '-' ::
          (u.drop 10).flatMap byteHex)))) := by
  rcases u with _ | ⟨u0, u⟩
  · simp at hlen
  rcases u with _ | ⟨u1, u⟩
  · simp at hlen
  rcases u with _ | ⟨u2, u⟩
  · simp at hlen
  rcases u with _ | ⟨u3, u⟩
  · simp at hlen
  rcases u with _ | ⟨u4, u⟩
  · simp at hlen
  rcases u with _ | ⟨u5, u⟩
  · simp at hlen
  rcases u with _ | ⟨u6, u⟩
  · simp at hlen
  rcases u with _ | ⟨u7, u⟩
  · simp at hlen
  rcases u with _ | ⟨u8, u⟩
  · simp at hlen
  rcases u with _ | ⟨u9, u⟩
  · simp at hlen
  rcases u with _ | ⟨u10, u⟩
  · simp at hlen
  rcases u with _ | ⟨u11, u⟩
  · simp at hlen
  rcases u with _ | ⟨u12, u⟩
  · simp at hlen
  rcases u with _ | ⟨u13, u⟩
  · simp at hlen
  rcases u with _ | ⟨u14, u⟩
  · simp at hlen
  rcases u with _ | ⟨u15, u⟩
  · simp at hlen
  rcases u with _ | ⟨uex, u⟩
  rotate_left
  · simp at hlen
  simp [GUIDString, revGroups, byteHex]

set_option maxHeartbeats 1000000 in
theorem canonical_roundtrip (s : String) (hc : isCanonicalGUID s = true) :
    ∃ g, Parse s = some g ∧ GUIDString g = s := by
  obtain ⟨l⟩ := s
  simp only [isCanonicalGUID, hexPositions, Bool.and_eq_true, beq_iff_eq,
    List.all_eq_true, List.mem_cons, List.mem_singleton, forall_eq_or_imp, forall_eq,
    List.not_mem_nil, false_implies, implies_true, and_true] at hc
  obtain ⟨⟨⟨⟨⟨hlen, h8⟩, h13⟩, h18⟩, h23⟩, hx0, hx1, hx2, hx3, hx4, hx5, hx6, hx7, hx9, hx10, hx11, hx12, hx14, hx15, hx16, hx17, hx19, hx20, hx21, hx22, hx24, hx25, hx26, hx27, hx28, hx29, hx30, hx31, hx32, hx33, hx34, hx35⟩ := hc
  have hl0 : l = (l.drop 0).take 36 := by
    rw [List.drop_zero]
    exact (List.take_of_length_le (by omega)).symm
  have hstep : ∀ n m k j : Nat, n < 36 → m = n + 1 → k = j + 1 →
      (l.drop n).take k = l.getD n 'x' :: (l.drop m).take j := by
    intro n m k j hn hm hk
    subst hm hk
    rw [List.drop_eq_getElem_cons (show n < l.length by omega), List.take_succ_cons,
      List.getD_eq_getElem l 'x' (show n < l.length by omega)]
  have hl : l = [l.getD 0 'x', l.getD 1 'x', l.getD 2 'x', l.getD 3 'x', l.getD 4 'x', l.getD 5 'x', l.getD 6 'x', l.getD 7 'x', '-', l.getD 9 'x', l.getD 10 'x', l.getD 11 'x', l.getD 12 'x', '-', l.getD 14 'x', l.getD 15 'x', l.getD 16 'x', l.getD 17 'x', '-', l.getD 19 'x', l.getD 20 'x', l.getD 21 'x', l.getD 22 'x', '-', l.getD 24 'x', l.getD 25 'x', l.getD 26 'x', l.getD 27 'x', l.getD 28 'x', l.getD 29 'x', l.getD 30 'x', l.getD 31 'x', l.getD 32 'x', l.getD 33 'x', l.getD 34 'x', l.getD 35 'x'] := by
    conv_lhs => rw [hl0]
    rw [hstep 0 1 36 35 (by omega) rfl rfl,
      hstep 1 2 35 34 (by omega) rfl rfl,
      hstep 2 3 34 33 (by omega) rfl rfl,
      hstep 3 4 33 32 (by omega) rfl rfl,
      hstep 4 5 32 31 (by omega) rfl rfl,
      hstep 5 6 31 30 (by omega) rfl rfl,
      hstep 6 7 30 29 (by omega) rfl rfl,
      hstep 7 8 29 28 (by omega) rfl rfl,
      hstep 8 9 28 27 (by omega) rfl rfl,
      hstep 9 10 27 26 (by omega) rfl rfl,
      hstep 10 11 26 25 (by omega) rfl rfl,
      hstep 11 12 25 24 (by omega) rfl rfl,
      hstep 12 13 24 23 (by omega) rfl rfl,
      hstep 13 14 23 22 (by omega) rfl rfl,
      hstep 14 15 22 21 (by omega) rfl rfl,
      hstep 15 16 21 20 (by omega) rfl rfl,
      hstep 16 17 20 19 (by omega) rfl rfl,
      hstep 17 18 19 18 (by omega) rfl rfl,
      hstep 18 19 18 17 (by omega) rfl rfl,
      hstep 19 20 17 16 (by omega) rfl rfl,
      hstep 20 21 16 15 (by omega) rfl rfl,
      hstep 21 22 15 14 (by omega) rfl rfl,
      hstep 22 23 14 13 (by omega) rfl rfl,
      hstep 23 24 13 12 (by omega) rfl rfl,
      hstep 24 25 12 11 (by omega) rfl rfl,
      hstep 25 26 11 10 (by omega) rfl rfl,
      hstep 26 27 10 9 (by omega) rfl rfl,
      hstep 27 28 9 8 (by omega) rfl rfl,
      hstep 28 29 8 7 (by omega) rfl rfl,
      hstep 29 30 7 6 (by omega) rfl rfl,
      hstep 30 31 6 5 (by omega) rfl rfl,
      hstep 31 32 5 4 (by omega) rfl rfl,
      hstep 32 33 4 3 (by omega) rfl rfl,
      hstep 33 34 3 2 (by omega) rfl rfl,
      hstep 34 35 2 1 (by omega) rfl rfl,
      hstep 35 36 1 0 (by omega) rfl rfl,
      List.take_zero]
    rw [h8, h13, h18, h23]
  have hstr : l.filter (· != '-') = [l.getD 0 'x', l.getD 1 'x', l.getD 2 'x', l.getD 3 'x', l.getD 4 'x', l.getD 5 'x', l.getD 6 'x', l.getD 7 'x', l.getD 9 'x', l.getD 10 'x', l.getD 11 'x', l.getD 12 'x', l.getD 14 'x', l.getD 15 'x', l.getD 16 'x', l.getD 17 'x', l.getD 19 'x', l.getD 20 'x', l.getD 21 'x', l.getD 22 'x', l.getD 24 'x', l.getD 25 'x', l.getD 26 'x', l.getD 27 'x', l.getD 28 'x', l.getD 29 'x', l.getD 30 'x', l.getD 31 'x', l.getD 32 'x', l.getD 33 'x', l.getD 34 'x', l.getD 35 'x'] := by
    conv_lhs => rw [hl]
    simp only [List.filter_cons, List.filter_nil, upHex_ne_hyphen _ hx0, upHex_ne_hyphen _ hx1, upHex_ne_hyphen _ hx2, upHex_ne_hyphen _ hx3, upHex_ne_hyphen _ hx4, upHex_ne_hyphen _ hx5, upHex_ne_hyphen _ hx6, upHex_ne_hyphen _ hx7, upHex_ne_hyphen _ hx9, upHex_ne_hyphen _ hx10, upHex_ne_hyphen _ hx11, upHex_ne_hyphen _ hx12, upHex_ne_hyphen _ hx14, upHex_ne_hyphen _ hx15, upHex_ne_hyphen _ hx16, upHex_ne_hyphen _ hx17, upHex_ne_hyphen _ hx19, upHex_ne_hyphen _ hx20, upHex_ne_hyphen _ hx21, upHex_ne_hyphen _ hx22, upHex_ne_hyphen _ hx24, upHex_ne_hyphen _ hx25, upHex_ne_hyphen _ hx26, upHex_ne_hyphen _ hx27, upHex_ne_hyphen _ hx28, upHex_ne_hyphen _ hx29, upHex_ne_hyphen _ hx30, upHex_ne_hyphen _ hx31, upHex_ne_hyphen _ hx32, upHex_ne_hyphen _ hx33, upHex_ne_hyphen _ hx34, upHex_ne_hyphen _ hx35,
      bne_self_eq_false, if_true, if_false, Bool.false_eq_true, ↓reduceIte]
  have hhex : ∀ c ∈ [l.getD 0 'x', l.getD 1 'x', l.getD 2 'x', l.getD 3 'x', l.getD 4 'x', l.getD 5 'x', l.getD 6 'x', l.getD 7 'x', l.getD 9 'x', l.getD 10 'x', l.getD 11 'x', l.getD 12 'x', l.getD 14 'x', l.getD 15 'x', l.getD 16 'x', l.getD 17 'x', l.getD 19 'x', l.getD 20 'x', l.getD 21 'x', l.getD 22 'x', l.getD 24 'x', l.getD 25 'x', l.getD 26 'x', l.getD 27 'x', l.getD 28 'x', l.getD 29 'x', l.getD 30 'x', l.getD 31 'x', l.getD 32 'x', l.getD 33 'x', l.getD 34 'x', l.getD 35 'x'], isUpHexChar c = true := by
    intro c hcm
    simp only [List.mem_cons, List.not_mem_nil, or_false] at hcm
    rcases hcm with rfl | rfl | rfl | rfl | rfl | rfl | rfl | rfl | rfl | rfl | rfl | rfl | rfl | rfl | rfl | rfl | rfl | rfl | rfl | rfl | rfl | rfl | rfl | rfl | rfl | rfl | rfl | rfl | rfl | rfl | rfl | rfl <;> assumption
  obtain ⟨bs, hdec, hblen, _, hflat⟩ := hexDecode_of_hex
    [l.getD 0 'x', l.getD 1 'x', l.getD 2 'x', l.getD 3 'x', l.getD 4 'x', l.getD 5 'x', l.getD 6 'x', l.getD 7 'x', l.getD 9 'x', l.getD 10 'x', l.getD 11 'x', l.getD 12 'x', l.getD 14 'x', l.getD 15 'x', l.getD 16 'x', l.getD 17 'x', l.getD 19 'x', l.getD 20 'x', l.getD 21 'x', l.getD 22 'x', l.getD 24 'x', l.getD 25 'x', l.getD 26 'x', l.getD 27 'x', l.getD 28 'x', l.getD 29 'x', l.getD 30 'x', l.getD 31 'x', l.getD 32 'x', l.getD 33 'x', l.getD 34 'x', l.getD 35 'x'] 16 hhex rfl
  refine ⟨revGroups bs, ?_, ?_⟩
  · show Parse (String.mk l) = some (revGroups bs)
    unfold Parse
    rw [show (String.mk l).data = l from rfl, hstr]
    simp only [hdec]
    simp [hblen]
  · show GUIDString (revGroups bs) = String.mk l
    rw [GUIDString_flat bs hblen]
    conv_rhs => rw [hl]
    simp only [flatMap_byteHex_take, flatMap_byteHex_drop, hflat]
    simp

theorem parse_needs_32_hex (s : String)
    (h : ¬ ((s.data.filter (· != '-')).length = 32 ∧
            ∀ c ∈ s.data.filter (· != '-'), (fromHexChar c).isSome = true)) :
    Parse s = none := by
  unfold Parse
  cases hd : hexDecode (s.data.filter (· != '-')) with
  | none => simp [hd]
  | some decoded =>
    obtain ⟨hl, hhex⟩ := hexDecode_sound _ _ hd
    by_cases h16 : decoded.length = 16
    · exact absurd ⟨by omega, hhex⟩ h
    · simp [hd, h16]


end guid

/-- **C1.** GUID parse and format are exact inverses over canonical text: for
every 16-byte GUID `g`, `Parse (g.String())` succeeds and returns `g`; for
every canonical text `t` (`XXXXXXXX-XXXX-XXXX-XXXX-XXXXXXXXXXXX`, 32 hex
digits after stripping hyphens), `Parse t` succeeds and
`(Parse t).String() = t`; and `Parse` returns an error whenever the
hyphen-stripped text is not 32 hex digits. -/
theorem guid_parse_format_inverse :
    (∀ g : Bytes, g.length = 16 → (∀ b ∈ g, b < 256) →
        guid.Parse (guid.GUIDString g) = some g) ∧
    (∀ s : String, guid.isCanonicalGUID s = true →
        ∃ g, guid.Parse s = some g ∧ guid.GUIDString g = s) ∧
    (∀ s : String,
        ¬ ((s.data.filter (· != '-')).length = 32 ∧
            ∀ c ∈ s.data.filter (· != '-'), (guid.fromHexChar c).isSome = true) →
        guid.Parse s = none) :=
  ⟨guid.parse_format_all, guid.canonical_roundtrip, guid.parse_needs_32_hex⟩

/-- Witness for C1: the S1 scenario GUID and text, and a malformed text. -/
theorem guid_parse_format_inverse_witness :
    guid.Parse (guid.GUIDString
      [0x67, 0x45, 0x23, 0x01, 0xAB, 0x89, 0xEF, 0xCD,
       0x01, 0x23, 0x45, 0x67, 0x89, 0xAB, 0xCD, 0xEF]) =
      some [0x67, 0x45, 0x23, 0x01, 0xAB, 0x89, 0xEF, 0xCD,
            0x01, 0x23, 0x45, 0x67, 0x89, 0xAB, 0xCD, 0xEF] ∧
    (∃ g, guid.Parse "01234567-89AB-CDEF-0123-456789ABCDEF" = some g ∧
        guid.GUIDString g = "01234567-89AB-CDEF-0123-456789ABCDEF") ∧
    guid.Parse "nothex" = none :=
  ⟨guid_parse_format_inverse.1 _ (by decide) (by decide),
   guid_parse_format_inverse.2.1 _ (by decide),
   guid_parse_format_inverse.2.2 _ (by decide)⟩



theorem fillGapsGo_covers (flashSize : Nat) :
    ∀ (rs : List FlashRegion) (offset : Nat),
      (∀ r ∈ rs, r.Valid = true) →
      (∀ r ∈ rs, EndOffset r ≤ flashSize) →
      offset ≤ flashSize →
      ∀ out, fillGapsGo flashSize offset rs = some out →
        coversRange out offset flashSize = true
  | [], offset => by
    intro _ _ hle out hout
    simp only [fillGapsGo] at hout
    split at hout <;> cases hout <;> simp [coversRange, hle]
    omega
  | r :: rest, offset => by
    intro hv he hle out hout
    simp only [fillGapsGo] at hout
    split at hout
    · exact absurd hout (by simp)
    · rename_i hnb
      cases htail : fillGapsGo flashSize (EndOffset r) rest with
      | none => rw [htail] at hout; exact absurd hout (by simp)
      | some tail =>
        rw [htail] at hout
        simp only [Option.some.injEq] at hout
        subst hout
        have hvr : r.Valid = true := hv r (by simp)
        have hbl : r.Base ≤ r.Limit := by
          simp only [FlashRegion.Valid, Bool.and_eq_true, decide_eq_true_eq] at hvr
          omega
        have hre : EndOffset r ≤ flashSize := he r (by simp)
        have hbe : BaseOffset r ≤ EndOffset r := by
          simp only [BaseOffset, EndOffset, RegionBlockSize]
          omega
        have hoe : offset ≤ EndOffset r := by
          simp only [BaseOffset, EndOffset, RegionBlockSize] at hnb hbe ⊢
          omega
        have ih := fillGapsGo_covers flashSize rest (EndOffset r)
          (fun x hx => hv x (by simp [hx])) (fun x hx => he x (by simp [hx]))
          hre tail htail
        by_cases hgap : offset < BaseOffset r
        · simp only [hgap, if_pos, List.cons_append, List.nil_append]
          simp [coversRange, ih, le_of_lt hgap, hbe]
        · simp only [hgap, if_neg, List.nil_append]
          have heq : BaseOffset r = offset := by omega
          simp [coversRange, ih, heq, hbe, hoe]

theorem fillGapsGo_overlap (flashSize : Nat) :
    ∀ (l₁ : List FlashRegion) (offset : Nat) (r₁ r₂ : FlashRegion) (l₂ : List FlashRegion),
      BaseOffset r₂ < EndOffset r₁ →
      fillGapsGo flashSize offset (l₁ ++ r₁ :: r₂ :: l₂) = none
  | [], offset, r₁, r₂, l₂ => by
    intro hov
    simp only [List.nil_append, fillGapsGo]
    split
    · rfl
    · have h2 : fillGapsGo flashSize (EndOffset r₁) (r₂ :: l₂) = none := by
        simp only [fillGapsGo]
        split
        · rfl
        · omega
      simp only [h2]
  | a :: l₁, offset, r₁, r₂, l₂ => by
    intro hov
    simp only [List.cons_append, fillGapsGo, List.append_eq]
    split
    · rfl
    · rw [fillGapsGo_overlap flashSize l₁ (EndOffset a) r₁ r₂ l₂ hov]

/-- Claim C2, counterexample: with no decoded regions and a flash of 0x2000
bytes, `fillRegionGaps` succeeds with a single synthetic region covering
`[0x1000, 0x2000)`; the resulting region list does not cover `[0, FlashSize)`
(byte 0 belongs to the flash descriptor, not to any region). -/
theorem fillRegionGaps_skips_descriptor :
    fillRegionGaps 0x2000 [] = some [⟨0x1000, 0x2000, true, ⟨1, 1⟩⟩] ∧
    coversRange [⟨0x1000, 0x2000, true, ⟨1, 1⟩⟩] 0 0x2000 = false := by
  constructor
  · rfl
  · rfl

/-- Claim C2, amended: after `NewFlashImage`'s gap-filling succeeds, the
regions (already sorted by base, all `Valid`, all ending within the flash, as
`NewFlashImage` guarantees) tile the byte range
`[FlashDescriptorLength, FlashSize)` — not `[0, FlashSize)` — contiguously
with no overlaps; and any overlap between decoded regions makes
`fillRegionGaps` return a fatal error instead of a region list. -/
theorem fillRegionGaps_partition (flashSize : Nat) (rs : List FlashRegion)
    (hv : ∀ r ∈ rs, r.Valid = true)
    (he : ∀ r ∈ rs, EndOffset r ≤ flashSize)
    (hfs : FlashDescriptorLength ≤ flashSize) :
    (∀ out, fillRegionGaps flashSize rs = some out →
        coversRange out FlashDescriptorLength flashSize = true) ∧
    (∀ l₁ r₁ r₂ l₂, rs = l₁ ++ r₁ :: r₂ :: l₂ → BaseOffset r₂ < EndOffset r₁ →
        fillRegionGaps flashSize rs = none) := by
  constructor
  · intro out hout
    exact fillGapsGo_covers flashSize rs FlashDescriptorLength hv he hfs out hout
  · intro l₁ r₁ r₂ l₂ hsplit hov
    subst hsplit
    exact fillGapsGo_overlap flashSize l₁ FlashDescriptorLength r₁ r₂ l₂ hov

/-- Witness for C2. -/
theorem fillRegionGaps_partition_witness :
    coversRange [⟨0x1000, 0x2000, false, ⟨1, 1⟩⟩, ⟨0x2000, 0x3000, true, ⟨2, 2⟩⟩]
        FlashDescriptorLength 0x3000 = true ∧
    fillRegionGaps 0x4000 [⟨1, 2⟩, ⟨2, 3⟩] = none :=
  ⟨(fillRegionGaps_partition 0x3000 [⟨1, 1⟩] (by decide) (by decide) (by decide)).1
      _ (by decide),
   (fillRegionGaps_partition 0x4000 [⟨1, 2⟩, ⟨2, 3⟩] (by decide) (by decide) (by decide)).2
      [] ⟨1, 2⟩ ⟨2, 3⟩ [] rfl (by decide)⟩



theorem findFVGo_none (data : Bytes) :
    ∀ (fuel offset : Nat),
      (∀ o, offset ≤ o → (o - offset) % 8 = 0 → o + 4 < data.length →
          (data.drop o).take 4 = fvSig → False) →
      findFVGo fuel data offset = -1
  | 0, offset => by intro _; rfl
  | fuel + 1, offset => by
    intro hno
    simp only [findFVGo]
    split
    · rename_i hlt
      split
      · rename_i hsig
        exact absurd hsig (fun h => hno offset le_rfl (by simp) hlt h)
      · exact findFVGo_none data fuel (offset + 8) (fun o h1 h2 h3 h4 =>
          hno o (by omega) (by omega) h3 h4)
    · rfl

theorem findFVGo_found (data : Bytes) :
    ∀ (fuel offset o : Nat),
      offset ≤ o → (o - offset) % 8 = 0 → o + 4 < data.length →
      (data.drop o).take 4 = fvSig →
      (∀ o', offset ≤ o' → (o' - offset) % 8 = 0 → o' + 4 < data.length →
          (data.drop o').take 4 = fvSig → o ≤ o') →
      data.length - offset < fuel →
      findFVGo fuel data offset = (o : Int) - 40
  | 0, offset, o => by
    intro h1 _ h3 _ _ hf
    omega
  | fuel + 1, offset, o => by
    intro h1 h2 h3 h4 hmin hf
    simp only [findFVGo]
    have hcond : offset + 4 < data.length := by omega
    rw [if_pos hcond]
    by_cases hsig : (data.drop offset).take 4 = fvSig
    · rw [if_pos hsig]
      have hle : o ≤ offset := hmin offset le_rfl (by simp) hcond hsig
      have heq : o = offset := by omega
      subst heq
      rfl
    · rw [if_neg hsig]
      have ho8 : offset + 8 ≤ o := by
        rcases Nat.lt_or_ge o (offset + 8) with h | h
        · have heq : o = offset := by omega
          subst heq
          exact absurd h4 hsig
        · exact h
      exact findFVGo_found data fuel (offset + 8) o (by omega) (by omega) h3 h4
        (fun o' ha hb hc hd => hmin o' (by omega) (by omega) hc hd)
        (by omega)

/-- Claim C9, counterexample: in a 36-byte input whose final four bytes are
the `"_FVH"` signature, the signature appears at the examined offset 32, yet
`FindFirmwareVolumeOffset` returns `-1` instead of `32 - 40 = -8`: the scan
loop requires `offset + 4 < len(data)` (strictly), so a signature ending
exactly at the end of the data is missed. -/
theorem findFVOffset_misses_final_signature :
    (List.replicate 32 0 ++ fvSig : Bytes).length = 36 ∧
    ((List.replicate 32 0 ++ fvSig : Bytes).drop 32).take 4 = fvSig ∧
    FindFirmwareVolumeOffset (List.replicate 32 0 ++ fvSig) = -1 := by
  refine ⟨by decide, by decide, by decide⟩

/-- Claim C9, amended: `FindFirmwareVolumeOffset(data)` examines offsets
32, 40, 48, … with `offset + 4 < len(data)` (strictly) for the 4-byte
signature `"_FVH"` and, for the first such offset where the signature
appears, returns that offset minus 40; it returns `-1` whenever no signature
is found at the examined offsets or `len(data) < 32`. -/
theorem findFVOffset_characterization :
    (∀ (data : Bytes) (o : Nat),
        32 ≤ o → (o - 32) % 8 = 0 → o + 4 < data.length →
        (data.drop o).take 4 = fvSig →
        (∀ o', 32 ≤ o' → (o' - 32) % 8 = 0 → o' + 4 < data.length →
            (data.drop o').take 4 = fvSig → o ≤ o') →
        FindFirmwareVolumeOffset data = (o : Int) - 40) ∧
    (∀ data : Bytes,
        (∀ o, 32 ≤ o → (o - 32) % 8 = 0 → o + 4 < data.length →
            (data.drop o).take 4 = fvSig → False) →
        FindFirmwareVolumeOffset data = -1) := by
  constructor
  · intro data o h1 h2 h3 h4 hmin
    unfold FindFirmwareVolumeOffset
    rw [if_neg (by omega)]
    exact findFVGo_found data (data.length + 1) 32 o h1 h2 h3 h4 hmin (by omega)
  · intro data hno
    unfold FindFirmwareVolumeOffset
    split
    · rfl
    · exact findFVGo_none data (data.length + 1) 32 hno

/-- Witness for C9. -/
theorem findFVOffset_characterization_witness :
    FindFirmwareVolumeOffset (List.replicate 40 0 ++ fvSig ++ [0]) = (40 : Int) - 40 ∧
    FindFirmwareVolumeOffset (List.replicate 10 0) = -1 :=
  ⟨findFVOffset_characterization.1 _ 40 (by decide) (by decide) (by decide) (by decide)
      (fun o' h1 h2 h3 h4 => by
        by_contra hlt
        push_neg at hlt
        have heq : o' = 32 := by omega
        subst heq
        revert h4
        decide),
   findFVOffset_characterization.2 _ (fun o h1 h2 h3 h4 => by
      have hl : (List.replicate 10 0 : Bytes).length = 10 := by decide
      omega)⟩



/-- Claim C10: `FirmwareVolume.InsertFile` is not atomic on its empty-input
error: when `alignedOffset` exceeds the current buffer length and `fBuf` is
empty, it returns the "trying to insert empty file" error only after having
appended erase-polarity padding up to `alignedOffset` (the buffer grows to
`alignedOffset` despite the error); on the aligned-offset-precedes-end error
the buffer is unchanged. -/
theorem insertFile_mutation :
    (∀ (pol : Nat) (buf : Bytes) (ao : Nat) (fBuf : Bytes),
        buf.length < ao → fBuf = [] →
        InsertFile pol buf ao fBuf =
          (buf ++ List.replicate (ao - buf.length) pol, some .insertEmptyFile) ∧
        (InsertFile pol buf ao fBuf).1.length = ao) ∧
    (∀ (pol : Nat) (buf : Bytes) (ao : Nat) (fBuf : Bytes),
        ao < buf.length →
        InsertFile pol buf ao fBuf = (buf, some .insertOffsetMid)) := by
  constructor
  · intro pol buf ao fBuf hlt hempty
    subst hempty
    have hng : ¬ buf.length > ao := by omega
    refine ⟨by simp [InsertFile, hng], ?_⟩
    simp [InsertFile, hng]
    omega
  · intro pol buf ao fBuf hgt
    simp [InsertFile, hgt]

/-- Witness for C10. -/
theorem insertFile_mutation_witness :
    InsertFile 0xFF [1, 2] 4 [] = ([1, 2, 0xFF, 0xFF], some .insertEmptyFile) ∧
    InsertFile 0xFF [1, 2] 1 [9] = ([1, 2], some .insertOffsetMid) := by
  refine ⟨?_, insertFile_mutation.2 0xFF [1, 2] 1 [9] (by decide)⟩
  have h := (insertFile_mutation.1 0xFF [1, 2] 4 [] (by decide) rfl).1
  simpa using h



theorem serializeFileHeader_sum (x : FileHeader) :
    (serializeFileHeader x).sum =
      x.guid.sum + (x.checksumHeader + x.checksumFile + x.fileType + x.attributes) +
        x.size.sum + x.state := by
  simp [serializeFileHeader]
  ring

theorem serializeFileHeader_length (x : FileHeader) (hg : x.guid.length = 16)
    (hs : x.size.length = 3) : (serializeFileHeader x).length = 24 := by
  simp [serializeFileHeader, hg, hs]

theorem serializeFileHeaderExt_length (x : FileHeaderExtended) (hg : x.guid.length = 16)
    (hs : x.size.length = 3) : (serializeFileHeaderExt x).length = 32 := by
  simp [serializeFileHeaderExt, writeU64LE, serializeFileHeader_length x.toFileHeader hg hs]

theorem take32_serExt_append (x : FileHeaderExtended) (l : Bytes)
    (hg : x.guid.length = 16) (hs : x.size.length = 3) :
    (serializeFileHeaderExt x ++ l).take 32 = serializeFileHeaderExt x :=
  List.take_left' (serializeFileHeaderExt_length x hg hs)

theorem take32_serExt (x : FileHeaderExtended)
    (hg : x.guid.length = 16) (hs : x.size.length = 3) :
    (serializeFileHeaderExt x).take 32 = serializeFileHeaderExt x :=
  List.take_of_length_le (le_of_eq (serializeFileHeaderExt_length x hg hs))

theorem take24_serFH_append (x : FileHeader) (l : Bytes)
    (hg : x.guid.length = 16) (hs : x.size.length = 3) :
    (serializeFileHeader x ++ l).take 24 = serializeFileHeader x :=
  List.take_left' (serializeFileHeader_length x hg hs)

theorem take24_serExt (x : FileHeaderExtended)
    (hg : x.guid.length = 16) (hs : x.size.length = 3) :
    (serializeFileHeaderExt x).take 24 = serializeFileHeader x.toFileHeader := by
  unfold serializeFileHeaderExt
  exact List.take_left' (serializeFileHeader_length x.toFileHeader hg hs)

/-- Claim C7: after `File.ChecksumAndAssemble(fileData)`, (a) the header
checksum verifies to zero — the wrapping 8-bit sum of the serialized file
header minus `Checksum.File` minus `State` is 0 (`ChecksumHeader() == 0`) —
and (b) `Checksum.File` equals `0xAA` when attribute bit 6 (`0x40`) is
clear, and `0 - Checksum8(fileData)` (mod 256) when it is set. -/
theorem checksumAndAssemble_correct (f : File) (fileData : Bytes)
    (hg : f.header.guid.length = 16) (hs : f.header.size.length = 3) :
    ChecksumHeader (ChecksumAndAssemble f fileData) = 0 ∧
    (ChecksumAndAssemble f fileData).header.checksumFile =
      (if f.header.attributes &&& 0x40 ≠ 0 then (256 - Checksum8 fileData % 256) % 256
       else 0xAA) := by
  constructor
  · by_cases hL : IsLarge f.header.attributes = true
    all_goals by_cases hC : HasChecksum f.header.attributes = true
    all_goals simp only [ChecksumAndAssemble, ChecksumHeader, hL, hC, if_true, if_false,
      Bool.false_eq_true, FileHeaderExtMinLength, FileHeaderMinLength]
    all_goals simp only [take32_serExt_append, take32_serExt, take24_serFH_append,
      take24_serExt, hg, hs]
    all_goals simp only [serializeFileHeaderExt, Checksum8, List.sum_append,
      serializeFileHeader_sum, EmptyBodyChecksum, sub8]
    all_goals omega
  · by_cases hC : f.header.attributes &&& 0x40 = 0
    · have hC' : ¬ HasChecksum f.header.attributes = true := by
        simp [HasChecksum, hC]
      simp [ChecksumAndAssemble, hC', hC, EmptyBodyChecksum]
    · have hC' : HasChecksum f.header.attributes = true := by
        simp [HasChecksum, hC]
      simp [ChecksumAndAssemble, hC', hC, sub8, Checksum8]

/-- Witness for C7: a concrete file header with the body-checksum attribute
set, assembled over the body `[1, 2, 3]`. -/
theorem checksumAndAssemble_correct_witness :
    ChecksumHeader (ChecksumAndAssemble
      ⟨⟨⟨List.replicate 16 0, 0, 0, 7, 0x40, [0, 0, 0], 0x07⟩, 0⟩, "", [], none, [], 0⟩
      [1, 2, 3]) = 0 ∧
    (ChecksumAndAssemble
      ⟨⟨⟨List.replicate 16 0, 0, 0, 7, 0x40, [0, 0, 0], 0x07⟩, 0⟩, "", [], none, [], 0⟩
      [1, 2, 3]).header.checksumFile =
      (if (0x40 : Nat) &&& 0x40 ≠ 0 then (256 - Checksum8 [1, 2, 3] % 256) % 256
       else 0xAA) :=
  checksumAndAssemble_correct _ [1, 2, 3] (by decide) (by decide)



theorem NewSection_succ (env : ParseEnv) (fuel : Nat) (buf : Bytes) (i : Nat)
    (pol : Option Nat) :
    NewSection env (fuel + 1) buf i pol =
      stepNewSection env (parserAt env fuel) buf i pol := rfl

theorem stepNewSection_core_err (env : ParseEnv) (rec : ParserAPI) (buf : Bytes)
    (i : Nat) (pol : Option Nat) (e : PErr) (hcore : newSectionCore buf = .error e) :
    stepNewSection env rec buf i pol = .error e := by
  simp [stepNewSection, hcore]

theorem stepNewSection_default (env : ParseEnv) (rec : ParserAPI) (buf : Bytes)
    (i : Nat) (pol : Option Nat) (c : SectionCore)
    (hcore : newSectionCore buf = .ok c)
    (h2 : c.stype ≠ 0x02) (h15 : c.stype ≠ 0x15) (h14 : c.stype ≠ 0x14)
    (h17 : c.stype ≠ 0x17)
    (hd : ¬(c.stype = 0x13 ∨ c.stype = 0x1b ∨ c.stype = 0x1c)) :
    stepNewSection env rec buf i pol = .ok (sectionOfCore c i, pol) := by
  simp only [stepNewSection, hcore]
  rw [if_neg h2, if_neg h15, if_neg h14, if_neg h17, if_neg hd]

theorem stepNewSection_depex (env : ParseEnv) (rec : ParserAPI) (buf : Bytes)
    (i : Nat) (pol : Option Nat) (c : SectionCore)
    (hcore : newSectionCore buf = .ok c)
    (hd : c.stype = 0x13 ∨ c.stype = 0x1b ∨ c.stype = 0x1c)
    (hlen : c.headerSize < c.sbuf.length) :
    stepNewSection env rec buf i pol =
      .ok ({ sectionOfCore c i with
             depEx := parseDepEx (c.sbuf.drop c.headerSize) }, pol) := by
  have h2 : c.stype ≠ 0x02 := by rcases hd with h | h | h <;> omega
  have h15 : c.stype ≠ 0x15 := by rcases hd with h | h | h <;> omega
  have h14 : c.stype ≠ 0x14 := by rcases hd with h | h | h <;> omega
  have h17 : c.stype ≠ 0x17 := by rcases hd with h | h | h <;> omega
  simp only [stepNewSection, hcore]
  rw [if_neg h2, if_neg h15, if_neg h14, if_neg h17, if_pos hd,
    if_neg (by omega : ¬ c.sbuf.length ≤ c.headerSize)]

theorem newSectionCore_unknown_clamp (buf : Bytes) (hlen : 4 ≤ buf.length)
    (ht : buf.getD 3 0 ∉ recognizedSectionTypes)
    (hrd : Read3Size (buf.take 3) > buf.length) :
    newSectionCore buf =
      .ok ⟨buf.take 3, buf.getD 3 0, buf.length, SectionMinLength, buf⟩ := by
  simp only [newSectionCore, SectionMinLength]
  rw [if_neg (by omega), if_neg ht, if_pos hrd]
  simp [List.take_of_length_le]

theorem newSectionCore_mismatch (buf : Bytes) (hlen : 4 ≤ buf.length)
    (ht : buf.getD 3 0 ∈ recognizedSectionTypes)
    (hne : buf.take 3 ≠ [0xFF, 0xFF, 0xFF])
    (hrd : Read3Size (buf.take 3) > buf.length) :
    newSectionCore buf = .error .sectionSizeMismatch := by
  simp only [newSectionCore, SectionMinLength]
  rw [if_neg (by omega), if_pos ht, if_neg hne]
  simp [hrd]

theorem newSectionCore_ext_mismatch (buf : Bytes) (hlen : 8 ≤ buf.length)
    (ht : buf.getD 3 0 ∈ recognizedSectionTypes)
    (heq : buf.take 3 = [0xFF, 0xFF, 0xFF])
    (hne : readU32LE (buf.drop 4) ≠ 0xFFFFFFFF)
    (hrd : readU32LE (buf.drop 4) > buf.length) :
    newSectionCore buf = .error .sectionSizeMismatch := by
  simp only [newSectionCore, SectionMinLength, SectionExtMinLength]
  rw [if_neg (by omega), if_pos ht, if_pos heq, if_neg (by omega), if_neg hne]
  simp [hrd]

theorem newSectionCore_free_space (buf : Bytes) (hlen : 8 ≤ buf.length)
    (ht : buf.getD 3 0 ∈ recognizedSectionTypes)
    (heq : buf.take 3 = [0xFF, 0xFF, 0xFF])
    (hff : readU32LE (buf.drop 4) = 0xFFFFFFFF) :
    newSectionCore buf = .error .sectionFreeSpace := by
  simp only [newSectionCore, SectionMinLength, SectionExtMinLength]
  rw [if_neg (by omega), if_pos ht, if_pos heq, if_neg (by omega), if_pos hff]

/-- Claim C6: in `NewSection`, a section whose encoded size exceeds the
backing buffer is clamped to the buffer length only when the section type is
not one of the recognized types (the parse then succeeds with
`ExtendedSize = len(buf)`); for every recognized section type an oversize
size — 3-byte or 32-bit extended — makes `NewSection` return a
size-mismatch error, and a recognized section with `Size = {FF,FF,FF}` and
32-bit extended size `0xFFFFFFFF` is an error. -/
theorem newSection_size_handling :
    (∀ (env : ParseEnv) (fuel : Nat) (buf : Bytes) (i : Nat) (pol : Option Nat),
        4 ≤ buf.length → buf.getD 3 0 ∉ recognizedSectionTypes →
        Read3Size (buf.take 3) > buf.length →
        NewSection env (fuel + 1) buf i pol =
          .ok (sectionOfCore ⟨buf.take 3, buf.getD 3 0, buf.length,
            SectionMinLength, buf⟩ i, pol)) ∧
    (∀ (env : ParseEnv) (fuel : Nat) (buf : Bytes) (i : Nat) (pol : Option Nat),
        4 ≤ buf.length → buf.getD 3 0 ∈ recognizedSectionTypes →
        buf.take 3 ≠ [0xFF, 0xFF, 0xFF] →
        Read3Size (buf.take 3) > buf.length →
        NewSection env (fuel + 1) buf i pol = .error .sectionSizeMismatch) ∧
    (∀ (env : ParseEnv) (fuel : Nat) (buf : Bytes) (i : Nat) (pol : Option Nat),
        8 ≤ buf.length → buf.getD 3 0 ∈ recognizedSectionTypes →
        buf.take 3 = [0xFF, 0xFF, 0xFF] →
        readU32LE (buf.drop 4) ≠ 0xFFFFFFFF →
        readU32LE (buf.drop 4) > buf.length →
        NewSection env (fuel + 1) buf i pol = .error .sectionSizeMismatch) ∧
    (∀ (env : ParseEnv) (fuel : Nat) (buf : Bytes) (i : Nat) (pol : Option Nat),
        8 ≤ buf.length → buf.getD 3 0 ∈ recognizedSectionTypes →
        buf.take 3 = [0xFF, 0xFF, 0xFF] →
        readU32LE (buf.drop 4) = 0xFFFFFFFF →
        NewSection env (fuel + 1) buf i pol = .error .sectionFreeSpace) := by
  refine ⟨?_, ?_, ?_, ?_⟩
  · intro env fuel buf i pol hlen ht hrd
    rw [NewSection_succ]
    exact stepNewSection_default env _ buf i pol _
      (newSectionCore_unknown_clamp buf hlen ht hrd)
      (fun h => ht (by rw [show buf.getD 3 0 = 0x02 from h]; decide))
      (fun h => ht (by rw [show buf.getD 3 0 = 0x15 from h]; decide))
      (fun h => ht (by rw [show buf.getD 3 0 = 0x14 from h]; decide))
      (fun h => ht (by rw [show buf.getD 3 0 = 0x17 from h]; decide))
      (by rintro (h | h | h) <;>
        exact ht (by rw [show buf.getD 3 0 = _ from h]; decide))
  · intro env fuel buf i pol hlen ht hne hrd
    rw [NewSection_succ]
    exact stepNewSection_core_err env _ buf i pol _
      (newSectionCore_mismatch buf hlen ht hne hrd)
  · intro env fuel buf i pol hlen ht heq hne hrd
    rw [NewSection_succ]
    exact stepNewSection_core_err env _ buf i pol _
      (newSectionCore_ext_mismatch buf hlen ht heq hne hrd)
  · intro env fuel buf i pol hlen ht heq hff
    rw [NewSection_succ]
    exact stepNewSection_core_err env _ buf i pol _
      (newSectionCore_free_space buf hlen ht heq hff)

/-- Witness for C6: a clamped unknown-type section, two oversize recognized
sections, and a free-space section header. -/
theorem newSection_size_handling_witness :
    NewSection emptyEnv 1 [9, 0, 0, 0xAA] 0 none =
      .ok (sectionOfCore ⟨[9, 0, 0], 0xAA, 4, SectionMinLength,
        [9, 0, 0, 0xAA]⟩ 0, none) ∧
    NewSection emptyEnv 1 [9, 0, 0, 0x19] 0 none = .error .sectionSizeMismatch ∧
    NewSection emptyEnv 1 [0xFF, 0xFF, 0xFF, 0x19, 0x20, 0, 0, 0] 0 none =
      .error .sectionSizeMismatch ∧
    NewSection emptyEnv 1 [0xFF, 0xFF, 0xFF, 0x19, 0xFF, 0xFF, 0xFF, 0xFF] 0 none =
      .error .sectionFreeSpace := by
  refine ⟨?_, ?_, ?_, ?_⟩
  · have h := newSection_size_handling.1 emptyEnv 0 [9, 0, 0, 0xAA] 0 none
      (by decide) (by decide) (by decide)
    simpa using h
  · exact newSection_size_handling.2.1 emptyEnv 0 [9, 0, 0, 0x19] 0 none
      (by decide) (by decide) (by decide) (by decide)
  · exact newSection_size_handling.2.2.1 emptyEnv 0 _ 0 none
      (by decide) (by decide) (by decide) (by decide) (by decide)
  · exact newSection_size_handling.2.2.2 emptyEnv 0 _ 0 none
      (by decide) (by decide) (by decide) (by decide)


theorem depExOpCodeOf_END (b : Nat) (h : depExOpCodeOf b = some .END) : b = 8 := by
  by_contra hne
  rcases Nat.lt_or_ge b 10 with hlt | hge
  · interval_cases b <;> simp_all [depExOpCodeOf]
  · obtain ⟨k, rfl⟩ : ∃ k, b = k + 10 := ⟨b - 10, by omega⟩
    simp [depExOpCodeOf] at h

theorem parseDepExGo_no_end :
    ∀ (fuel : Nat) (l : Bytes), 8 ∉ l → parseDepExGo fuel l = none
  | 0, _ => by intro _; rfl
  | fuel + 1, [] => by intro _; rfl
  | fuel + 1, b :: rest => by
    intro hno
    have hb : b ≠ 8 := fun h => hno (h ▸ List.mem_cons_self b rest)
    have hrest : 8 ∉ rest := fun h => hno (List.mem_cons_of_mem b h)
    simp only [parseDepExGo]
    cases hop : depExOpCodeOf b with
    | none => rfl
    | some op =>
      have hnend : op ≠ .END := fun h => hb (depExOpCodeOf_END b (h ▸ hop))
      dsimp only
      by_cases hgd : op = .BEFORE ∨ op = .AFTER ∨ op = .PUSH
      · rw [if_pos hgd]
        by_cases h16 : rest.length < 16
        · rw [if_pos h16]
        · rw [if_neg h16,
            parseDepExGo_no_end fuel (rest.drop 16)
              (fun h => hrest (List.mem_of_mem_drop h))]
      · rw [if_neg hgd, if_neg hnend,
          parseDepExGo_no_end fuel rest hrest]

theorem parseDepEx_no_end (l : Bytes) (hno : 8 ∉ l) : parseDepEx l = none :=
  parseDepExGo_no_end (l.length + 1) l hno

/-- Claim C3, amended: an opcode stream with no `END` (0x08) byte makes
`parseDepEx` return an error, but `NewSection` demotes that error to a
logged warning: for a DepEx-typed section (0x13, 0x1b, 0x1c) whose body
fails `parseDepEx`, `NewSection` returns the section (with no DepEx list)
rather than an error. -/
theorem depex_missing_end_demoted :
    (∀ l : Bytes, 8 ∉ l → parseDepEx l = none) ∧
    (∀ (env : ParseEnv) (fuel : Nat) (buf : Bytes) (i : Nat) (pol : Option Nat)
        (c : SectionCore),
        newSectionCore buf = .ok c →
        (c.stype = 0x13 ∨ c.stype = 0x1b ∨ c.stype = 0x1c) →
        c.headerSize < c.sbuf.length →
        parseDepEx (c.sbuf.drop c.headerSize) = none →
        NewSection env (fuel + 1) buf i pol = .ok (sectionOfCore c i, pol)) := by
  constructor
  · exact parseDepEx_no_end
  · intro env fuel buf i pol c hcore hd hlen hfail
    rw [NewSection_succ, stepNewSection_depex env _ buf i pol c hcore hd hlen, hfail]
    simp [sectionOfCore]

/-- Claim C3, counterexample: the DXE-DepEx section `[5,0,0,0x13,6]` — body
`[TRUE]` with no terminating `END` — parses without error (`NewSection`
returns a section whose `DepEx` is empty), even though `parseDepEx` fails
on the body; the claim's "fatal parse error" does not occur. -/
theorem newSection_depex_missing_end_no_error :
    ((NewSection emptyEnv 1 [5, 0, 0, 0x13, 6] 0 none).toOption.map
        (fun p => p.1.depEx)) = some none ∧
    parseDepEx [6] = none := ⟨rfl, rfl⟩

/-- Witness for C3 at the section `[5,0,0,0x13,6]`. -/
theorem depex_missing_end_demoted_witness :
    parseDepEx [6] = none ∧
    NewSection emptyEnv 1 [5, 0, 0, 0x13, 6] 0 none =
      .ok (sectionOfCore ⟨[5, 0, 0], 0x13, 5, SectionMinLength,
        [5, 0, 0, 0x13, 6]⟩ 0, none) :=
  ⟨depex_missing_end_demoted.1 [6] (by decide),
   depex_missing_end_demoted.2 emptyEnv 0 [5, 0, 0, 0x13, 6] 0 none
     ⟨[5, 0, 0], 0x13, 5, SectionMinLength, [5, 0, 0, 0x13, 6]⟩
     (by rfl) (by decide) (by decide)
     (depex_missing_end_demoted.1 [6] (by decide))⟩


theorem or_one_and_one (a : Nat) : (a ||| 1) &&& 1 ≠ 0 := by
  simp only [Nat.and_one_is_mod]
  have h2 : a % 2 = 0 ∨ a % 2 = 1 := by omega
  rcases h2 with h | h <;> simp [Nat.or_mod_two_eq_one, h]

theorem and_fe_and_one (a : Nat) : (a &&& 0xFE) &&& 1 = 0 := by
  rw [Nat.and_assoc]
  simp

/-- Claim C8, amended: `File.SetSize` maintains the large-file half of the
invariant — after `SetSize`, `ExtendedSize > 0xFFFFFF` implies the
large-file attribute bit is set (and a small size clears it).  Neither
`NewFile` nor `SetSize` enforces `ExtendedSize ≥ header length`. -/
theorem setSize_large_attribute :
    ∀ (fh : FileHeaderExtended) (size : Nat) (resize : Bool),
      ((SetSize fh size resize).extendedSize > 0xFFFFFF →
        IsLarge (SetSize fh size resize).attributes = true) ∧
      ((SetSize fh size resize).extendedSize ≤ 0xFFFFFF →
        IsLarge (SetSize fh size resize).attributes = false) := by
  intro fh size resize
  by_cases hbig : size > 0xFFFFFF
  · constructor
    · intro _
      simp only [SetSize, setLarge, if_pos hbig, if_true, if_false, IsLarge]
      simp [bne_iff_ne, or_one_and_one]
    · intro hle
      simp only [SetSize, setLarge, if_pos hbig] at hle
      rcases resize with _ | _ <;> simp at hle <;> omega
  · constructor
    · intro hgt
      simp only [SetSize, setLarge, if_neg hbig] at hgt
      omega
    · intro _
      simp only [SetSize, setLarge, if_neg hbig, if_false, IsLarge]
      simp [and_fe_and_one]

/-- Claim C8, counterexample: `NewFile` accepts a 24-byte file whose 3-byte
size decodes to 1, returning a `File` with `ExtendedSize = 1`, far below the
24-byte header length the claim requires of every parsed file. -/
theorem newFile_below_header_length :
    ((NewFile emptyEnv 1 (List.replicate 16 0 ++ [0, 0, 0, 0] ++ [1, 0, 0, 0])
        none).toOption.map (fun p => p.1.map (fun f => f.header.extendedSize)))
      = some (some 1) ∧
    (1 : Nat) < FileHeaderMinLength := ⟨rfl, by decide⟩

/-- Witness for C8: `SetSize` with a 32 MiB size sets the large bit;
with 100 it clears it. -/
theorem setSize_large_attribute_witness :
    IsLarge (SetSize ⟨⟨List.replicate 16 0, 0, 0, 1, 0, [0, 0, 0], 0⟩, 0⟩
      0x2000000 false).attributes = true ∧
    IsLarge (SetSize ⟨⟨List.replicate 16 0, 0, 0, 1, 3, [0, 0, 0], 0⟩, 0⟩
      100 false).attributes = false :=
  ⟨(setSize_large_attribute _ 0x2000000 false).1 (by decide),
   (setSize_large_attribute _ 100 false).2 (by decide)⟩


theorem newFVCore_ok_shape (data : Bytes) (pol : Option Nat)
    (fv : FirmwareVolume) (pol' : Option Nat)
    (hcore : newFVCore data pol = .ok (fv, pol')) :
    fv.files = [] ∧
    fv.dataOffset = Align8
      (if fv.extHeaderOffset ≠ 0 ∧
          fv.extHeaderOffset + FirmwareVolumeExtHeaderMinSize < fv.length
       then fv.extHeaderOffset + fv.extHeaderSize else fv.headerLen) := by
  simp only [newFVCore] at hcore
  split at hcore
  · exact absurd hcore (by simp)
  · rename_i hmin
    split at hcore
    · exact absurd hcore (by simp)
    · rename_i blocks hblocks
      split at hcore
      · exact absurd hcore (by simp)
      · rename_i pol2 hpol
        split at hcore
        · exact absurd hcore (by simp)
        · rename_i hlen
          split at hcore
          · exact absurd hcore (by simp)
          · rename_i ext hext
            rcases ext with _ | ⟨n, es⟩
            · -- no extended header was read: the guard must have been false
              have hc : ¬ (readU16LE (data.drop 52) ≠ 0 ∧
                  FirmwareVolumeExtHeaderMinSize ≤ readU64LE (data.drop 32) ∧
                  readU16LE (data.drop 52) <
                    readU64LE (data.drop 32) - FirmwareVolumeExtHeaderMinSize) := by
                intro hc
                rw [if_pos hc] at hext
                split at hext <;> simp at hext
              dsimp only at hcore
              simp only [Except.ok.injEq, Prod.mk.injEq] at hcore
              obtain ⟨rfl, rfl⟩ := hcore
              refine ⟨rfl, ?_⟩
              simp only []
              rw [if_neg (by
                simp only [FirmwareVolumeExtHeaderMinSize] at hc ⊢
                omega)]
            · -- the extended header was read: the guard must have been true
              have hc : readU16LE (data.drop 52) ≠ 0 ∧
                  FirmwareVolumeExtHeaderMinSize ≤ readU64LE (data.drop 32) ∧
                  readU16LE (data.drop 52) <
                    readU64LE (data.drop 32) - FirmwareVolumeExtHeaderMinSize := by
                by_contra hc
                rw [if_neg hc] at hext
                simp at hext
              dsimp only at hcore
              simp only [Except.ok.injEq, Prod.mk.injEq] at hcore
              obtain ⟨rfl, rfl⟩ := hcore
              refine ⟨rfl, ?_⟩
              simp only []
              rw [if_pos (by
                simp only [FirmwareVolumeExtHeaderMinSize] at hc ⊢
                omega)]

/-- Claim C5, amended: whenever `NewFirmwareVolume` succeeds, `DataOffset`
is `HeaderLen` rounded up to a multiple of 8, except that when
`ExtHeaderOffset` is nonzero and `ExtHeaderOffset + 20 < Length` holds
*strictly* (not `≤` as claimed) it is `ExtHeaderOffset + ExtHeaderSize`
rounded up to a multiple of 8. -/
theorem fv_dataOffset_formula :
    ∀ (env : ParseEnv) (fuel : Nat) (data : Bytes) (off : Nat) (r : Bool)
      (pol : Option Nat) (fv : FirmwareVolume) (pol'' : Option Nat),
      NewFirmwareVolume env fuel data off r pol = .ok (fv, pol'') →
      fv.dataOffset = Align8
        (if fv.extHeaderOffset ≠ 0 ∧
            fv.extHeaderOffset + FirmwareVolumeExtHeaderMinSize < fv.length
         then fv.extHeaderOffset + fv.extHeaderSize else fv.headerLen) := by
  intro env fuel data off r pol fv pol'' h
  cases fuel with
  | zero => exact absurd h (by simp [NewFirmwareVolume, parserAt, failAPI])
  | succ fuel =>
    simp only [NewFirmwareVolume, parserAt, parserStep, stepNewFV] at h
    cases hcore : newFVCore data pol with
    | error e =>
      rw [hcore] at h
      exact absurd h (by simp)
    | ok p =>
      obtain ⟨fv0, pol'⟩ := p
      rw [hcore] at h
      obtain ⟨hnil, hoff⟩ := newFVCore_ok_shape data pol fv0 pol' hcore
      dsimp only at h
      split at h
      · split at h
        · exact absurd h (by simp)
        · rename_i q hq
          simp only [Except.ok.injEq, Prod.mk.injEq] at h
          obtain ⟨h1, rfl⟩ := h
          subst h1
          simpa using hoff
      · simp only [Except.ok.injEq, Prod.mk.injEq] at h
        obtain ⟨h1, rfl⟩ := h
        subst h1
        simpa using hoff


/-- Claim C5, counterexample: in `fvC5data` the extended header fits in the
claim's sense (`ExtHeaderOffset + 20 = 64 + 20 ≤ 84 = Length`) and carries
`ExtHeaderSize = 24`, so the claim demands
`DataOffset = Align8 (64 + 24) = 88`; the code's strict bound
(`ExtHeaderOffset < Length - 20`) fails, and the parser returns
`DataOffset = Align8 HeaderLen = 56`. -/
theorem fv_dataOffset_boundary_counterexample :
    ((NewFirmwareVolume emptyEnv 2 fvC5data 0 true none).toOption.map
      (fun p => (p.1.extHeaderOffset, p.1.length, p.1.dataOffset))) =
        some (64, 84, 56) ∧
    readU32LE ((fvC5data.drop 64).drop 16) = 24 ∧
    64 + FirmwareVolumeExtHeaderMinSize ≤ 84 ∧
    (56 : Nat) ≠ Align8 (64 + 24) := by
  refine ⟨rfl, by decide, by decide, by decide⟩




/-- Witness for C5 at the parse of `fv64data`. -/
theorem fv_dataOffset_formula_witness :
    fv64.dataOffset = Align8
      (if fv64.extHeaderOffset ≠ 0 ∧
          fv64.extHeaderOffset + FirmwareVolumeExtHeaderMinSize < fv64.length
       then fv64.extHeaderOffset + fv64.extHeaderSize else fv64.headerLen) :=
  fv_dataOffset_formula emptyEnv 2 fv64data 0 true none fv64 (some 0) rfl


theorem newFileCore_sentinel (env : ParseEnv) (buf : Bytes)
    (h32 : 32 ≤ buf.length)
    (hsz : (buf.drop 20).take 3 = [0xFF, 0xFF, 0xFF])
    (hext : readU64LE (buf.drop 24) = 0xFFFFFFFFFFFFFFFF) :
    newFileCore env buf = .ok none := by
  simp only [newFileCore, FileHeaderMinLength, FileHeaderExtMinLength]
  rw [if_neg (by omega), if_pos hsz, if_neg (by omega), if_pos hext]

theorem stepNewFile_core_none (env : ParseEnv) (rec : ParserAPI) (buf : Bytes)
    (pol : Option Nat) (h : newFileCore env buf = .ok none) :
    stepNewFile env rec buf pol = .ok (none, pol) := by
  simp [stepNewFile, h]

theorem fvFiles_no_zero (env : ParseEnv) :
    ∀ (fuel : Nat) (data : Bytes) (length lh offset : Nat) (pol : Option Nat)
      (files : List File) (free : Nat) (pol'' : Option Nat),
      (parserAt env fuel).fvFiles data length lh offset pol =
        .ok (files, free, pol'') →
      ∀ f ∈ files, f.header.extendedSize ≠ 0
  | 0 => by
    intro data length lh offset pol files free pol'' h
    exact absurd h (by simp [parserAt, failAPI])
  | fuel + 1 => by
    intro data length lh offset pol files free pol'' h
    simp only [parserAt, parserStep, stepFVFiles] at h
    split at h
    · split at h
      · exact absurd h (by simp)
      · split at h
        · exact absurd h (by simp)
        · -- free space sentinel: no files
          simp only [Except.ok.injEq, Prod.mk.injEq] at h
          obtain ⟨rfl, -, -⟩ := h
          simp
        · rename_i f pol2 hfile
          split at h
          · exact absurd h (by simp)
          · rename_i hne
            split at h
            · exact absurd h (by simp)
            · rename_i hq
              simp only [Except.ok.injEq, Prod.mk.injEq] at h
              obtain ⟨h1, -, -⟩ := h
              subst h1
              intro g hg
              rcases List.mem_cons.mp hg with rfl | hg2
              · exact hne
              · exact fvFiles_no_zero env fuel _ _ _ _ _ _ _ _ hq g hg2
    · simp only [Except.ok.injEq, Prod.mk.injEq] at h
      obtain ⟨rfl, -, -⟩ := h
      simp

/-- Claim C4: a file header whose 3-byte `Size` is `{FF,FF,FF}` and whose
64-bit `ExtendedSize` is all-ones is the free-space sentinel — `NewFile`
returns a null file with no error; the enclosing file-stream loop of
`NewFirmwareVolume` then stops and records `FreeSpace = Length - offset`
(at the 8-aligned offset, in `uint64` arithmetic); a parsed (non-null)
file whose `ExtendedSize` is 0 makes the file-stream loop return the
fatal `invalid length of file` error (firmwarevolume.go lines 283-285);
and consequently no successfully parsed volume contains a file with
`ExtendedSize = 0`. -/
theorem fv_free_space_and_zero_files :
    (∀ (env : ParseEnv) (fuel : Nat) (buf : Bytes) (pol : Option Nat),
        32 ≤ buf.length → (buf.drop 20).take 3 = [0xFF, 0xFF, 0xFF] →
        readU64LE (buf.drop 24) = 0xFFFFFFFFFFFFFFFF →
        NewFile env (fuel + 1) buf pol = .ok (none, pol)) ∧
    (∀ (env : ParseEnv) (fuel : Nat) (data : Bytes) (length lh offset : Nat)
        (pol pol' : Option Nat),
        offset < lh → Align8 offset < data.length →
        (parserAt env fuel).newFile (data.drop (Align8 offset)) pol =
          .ok (none, pol') →
        (parserAt env (fuel + 1)).fvFiles data length lh offset pol =
          .ok ([], (length + 18446744073709551616 - Align8 offset) %
            18446744073709551616, pol')) ∧
    (∀ (env : ParseEnv) (fuel : Nat) (data : Bytes) (length lh offset : Nat)
        (pol pol' : Option Nat) (f : File),
        offset < lh → Align8 offset < data.length →
        (parserAt env fuel).newFile (data.drop (Align8 offset)) pol =
          .ok (some f, pol') →
        f.header.extendedSize = 0 →
        (parserAt env (fuel + 1)).fvFiles data length lh offset pol =
          .error .invalidFileLength) ∧
    (∀ (env : ParseEnv) (fuel : Nat) (data : Bytes) (off : Nat) (r : Bool)
        (pol : Option Nat) (fv : FirmwareVolume) (pol'' : Option Nat),
        NewFirmwareVolume env fuel data off r pol = .ok (fv, pol'') →
        ∀ f ∈ fv.files, f.header.extendedSize ≠ 0) := by
  refine ⟨?_, ?_, ?_, ?_⟩
  · intro env fuel buf pol h32 hsz hext
    show stepNewFile env (parserAt env fuel) buf pol = .ok (none, pol)
    exact stepNewFile_core_none env _ buf pol (newFileCore_sentinel env buf h32 hsz hext)
  · intro env fuel data length lh offset pol pol' hlt hoff hfile
    show stepFVFiles env (parserAt env fuel) data length lh offset pol = _
    simp only [stepFVFiles]
    rw [if_pos hlt, if_neg (by omega), hfile]
  · intro env fuel data length lh offset pol pol' f hlt hoff hfile hzero
    show stepFVFiles env (parserAt env fuel) data length lh offset pol = _
    simp only [stepFVFiles]
    rw [if_pos hlt, if_neg (by omega), hfile]
    simp [hzero]
  · intro env fuel data off r pol fv pol'' h
    cases fuel with
    | zero => exact absurd h (by simp [NewFirmwareVolume, parserAt, failAPI])
    | succ fuel =>
      simp only [NewFirmwareVolume, parserAt, parserStep, stepNewFV] at h
      cases hcore : newFVCore data pol with
      | error e =>
        rw [hcore] at h
        exact absurd h (by simp)
      | ok p =>
        obtain ⟨fv0, pol'⟩ := p
        rw [hcore] at h
        obtain ⟨hnil, -⟩ := newFVCore_ok_shape data pol fv0 pol' hcore
        dsimp only at h
        split at h
        · split at h
          · exact absurd h (by simp)
          · rename_i hq
            simp only [Except.ok.injEq, Prod.mk.injEq] at h
            obtain ⟨h1, -⟩ := h
            subst h1
            simpa using fvFiles_no_zero env fuel _ _ _ _ _ _ _ _ hq
        · simp only [Except.ok.injEq, Prod.mk.injEq] at h
          obtain ⟨h1, -⟩ := h
          subst h1
          intro f hf
          simp [hnil] at hf


/-- Witness for C4: the 32-byte sentinel header, a file-stream stop on it
with `FreeSpace = 64 - 0`, the fatal error on the zero-size file header,
and the successfully parsed `fv64`. -/
theorem fv_free_space_and_zero_files_witness :
    NewFile emptyEnv 1 sentinelFile none = .ok (none, none) ∧
    (parserAt emptyEnv 2).fvFiles sentinelFile 64 40 0 none = .ok ([], 64, none) ∧
    (parserAt emptyEnv 2).fvFiles zeroSizeFile 64 40 0 none =
      .error .invalidFileLength ∧
    (∀ f ∈ fv64.files, f.header.extendedSize ≠ 0) :=
  ⟨fv_free_space_and_zero_files.1 emptyEnv 0 sentinelFile none (by decide)
      (by decide) (by decide),
   fv_free_space_and_zero_files.2.1 emptyEnv 1 sentinelFile 64 40 0 none none
      (by decide) (by decide)
      (fv_free_space_and_zero_files.1 emptyEnv 0 sentinelFile none (by decide)
        (by decide) (by decide)),
   fv_free_space_and_zero_files.2.2.1 emptyEnv 1 zeroSizeFile 64 40 0 none none
      zeroSizeParsedFile (by decide) (by decide) rfl rfl,
   fv_free_space_and_zero_files.2.2.2 emptyEnv 2 fv64data 0 true none fv64
      (some 0) rfl⟩
